import Mathlib

/-!
# Renderer (src/viewer/Renderer.cpp): a shallow embedding

The renderer is a sequence of OpenGL calls over a handful of fields.  The
embedding makes the state explicit:

* the fields of `render_attrs_t` and of `Renderer` itself;
* the part of the OpenGL context the code reads or writes (bound vertex array,
  bound array / uniform buffer, indexed uniform bindings, the data store of each
  buffer object, the buffer each vertex-array attribute sources);
* the sequence of calls made so far (`trace`), GL calls, shader calls and
  resource-manager calls alike.

Numbers of C++ type `float` are values of `F32`: a rational, an infinity or NaN.
The operators `*` and `/`, the conversion `F32.ofNat` and the float literals
follow IEEE 754 binary32: the exact result rounded by `F32.round`, with `x / 0`
and `inf * 0` as in the standard (signed zeros are not distinguished).  The glm
matrix helpers and the halvings use `F32.emul` and `F32.eadd`, which do not
round: in this program those operations are exact in binary32.
-/

namespace Rewind

/-! ## Floats -/

/-- A `float`: a finite value (an exact rational), a signed infinity, or NaN. -/
inductive F32 where
  | fin (q : ℚ)
  | inf (neg : Bool)
  | nan
  deriving DecidableEq

namespace F32

/-- Sign bit of a finite value (zero counts as positive). -/
def negQ (q : ℚ) : Bool := decide (q < 0)

/-- Nearest integer, ties to even. -/
def rne (s : ℚ) : ℤ :=
  if s - ⌊s⌋ < 1 / 2 then ⌊s⌋
  else if 1 / 2 < s - ⌊s⌋ then ⌊s⌋ + 1
  else if ⌊s⌋ % 2 = 0 then ⌊s⌋ else ⌊s⌋ + 1

/-- Exponent of the unit in the last place of a binary32 value of magnitude `a`:
24 significant bits, and not below `2 ^ (-149)` (subnormal range). -/
def ulpExp (a : ℚ) : ℤ := max (Int.log 2 a - 23) (-149)

/-- Rounding of an exact result to binary32: nearest value, ties to even, gradual
underflow, overflow to infinity. -/
def round (q : ℚ) : F32 :=
  let v : ℚ := (rne (|q| / 2 ^ ulpExp |q|) : ℚ) * 2 ^ ulpExp |q|
  if 2 ^ 128 ≤ v then inf (decide (q < 0)) else fin (if q < 0 then -v else v)

/-- Value of a finite float (0 for the special values). -/
def toRat : F32 → ℚ
  | fin q => q
  | _ => 0

/-- IEEE 754 multiplication: the exact product, rounded. -/
def mul : F32 → F32 → F32
  | fin a, fin b => round (a * b)
  | fin a, inf s => if a = 0 then nan else inf (xor (negQ a) s)
  | inf s, fin b => if b = 0 then nan else inf (xor s (negQ b))
  | inf s, inf t => inf (xor s t)
  | _, _ => nan

/-- IEEE 754 division: the exact quotient, rounded; a non-zero finite value over
zero is an infinity, `0 / 0` and `inf / inf` are NaN. -/
def div : F32 → F32 → F32
  | fin a, fin b => if b = 0 then (if a = 0 then nan else inf (negQ a)) else round (a / b)
  | fin _, inf _ => fin 0
  | inf s, fin b => inf (xor s (negQ b))
  | _, _ => nan

/-- Product without rounding.  It stands for the float products of the glm matrix
helpers, which in this program always have a factor 0 or 1, and for the
halvings `x * 0.5` (`rect.w * 0.5` is computed in double): these are exact in
binary32 unless a halving underflows.  It is also the product of `Mat4.apply`,
which is exact arithmetic by intent. -/
def emul : F32 → F32 → F32
  | fin a, fin b => fin (a * b)
  | fin a, inf s => if a = 0 then nan else inf (xor (negQ a) s)
  | inf s, fin b => if b = 0 then nan else inf (xor s (negQ b))
  | inf s, inf t => inf (xor s t)
  | _, _ => nan

/-- Sum without rounding.  It stands for the float sums of the glm matrix helpers,
which in this program always have at most one non-zero summand, and it is the
sum of `Mat4.apply`. -/
def eadd : F32 → F32 → F32
  | fin a, fin b => fin (a + b)
  | fin _, inf s => inf s
  | inf s, fin _ => inf s
  | inf s, inf t => if s = t then inf s else nan
  | _, _ => nan

instance : Mul F32 := ⟨mul⟩
instance : Div F32 := ⟨div⟩
instance : OfNat F32 n := ⟨fin n⟩

/-- Conversion of an unsigned integer (below `2 ^ 64`) to `float`: rounded to 24
significant bits. -/
def ofNat (n : Nat) : F32 := round n

end F32

/-! ## glm vectors and matrices -/

structure Vec2 where
  x : F32
  y : F32
  deriving DecidableEq

structure Vec3 where
  x : F32
  y : F32
  z : F32
  deriving DecidableEq

structure Vec4 where
  x : F32
  y : F32
  z : F32
  w : F32
  deriving DecidableEq

/-- Column-major 4x4 matrix, `c0 .. c3` are `m[0] .. m[3]`. -/
structure Mat4 where
  c0 : Vec4
  c1 : Vec4
  c2 : Vec4
  c3 : Vec4
  deriving DecidableEq

namespace Vec4

/-- Componentwise `vec4 * scalar`. -/
def smul (v : Vec4) (s : F32) : Vec4 :=
  ⟨F32.emul v.x s, F32.emul v.y s, F32.emul v.z s, F32.emul v.w s⟩

/-- Componentwise `vec4 + vec4`. -/
def add (a b : Vec4) : Vec4 :=
  ⟨F32.eadd a.x b.x, F32.eadd a.y b.y, F32.eadd a.z b.z, F32.eadd a.w b.w⟩

end Vec4

namespace Mat4

/-- The matrix `glm::mat4(1.0f)`. -/
def identity : Mat4 :=
  ⟨⟨1, 0, 0, 0⟩, ⟨0, 1, 0, 0⟩, ⟨0, 0, 1, 0⟩, ⟨0, 0, 0, 1⟩⟩

/-- The function `glm::translate(m, v)`:
`Result = m; Result[3] = m[0] * v[0] + m[1] * v[1] + m[2] * v[2] + m[3]`. -/
def translate (m : Mat4) (v : Vec3) : Mat4 :=
  { m with c3 := ((m.c0.smul v.x).add (m.c1.smul v.y) |>.add (m.c2.smul v.z)).add m.c3 }

/-- The function `glm::scale(m, v)`:
`Result[0] = m[0] * v[0]; Result[1] = m[1] * v[1]; Result[2] = m[2] * v[2]; Result[3] = m[3]`. -/
def scale (m : Mat4) (v : Vec3) : Mat4 :=
  ⟨m.c0.smul v.x, m.c1.smul v.y, m.c2.smul v.z, m.c3⟩

/-- Matrix times column vector, `m * v`. -/
def mulVec (m : Mat4) (v : Vec4) : Vec4 :=
  ((m.c0.smul v.x).add (m.c1.smul v.y) |>.add (m.c2.smul v.z)).add (m.c3.smul v.w)

/-- Image of the point `(x, y, z)` under the affine map `m` stands for, in exact
arithmetic (the vertex shader evaluates `model * vec4(pos, 1.0)` in floating
point), as a 3D point. -/
def apply (m : Mat4) (p : Vec3) : Vec3 :=
  let v := m.mulVec ⟨p.x, p.y, p.z, 1⟩
  ⟨v.x, v.y, v.z⟩

/-- The 16 floats of a matrix in memory order (`glm::value_ptr`). -/
def toList (m : Mat4) : List F32 :=
  [m.c0.x, m.c0.y, m.c0.z, m.c0.w, m.c1.x, m.c1.y, m.c1.z, m.c1.w,
   m.c2.x, m.c2.y, m.c2.z, m.c2.w, m.c3.x, m.c3.y, m.c3.z, m.c3.w]

end Mat4

/-! ## Machine integers -/

/-- Unsigned 16-bit integer (`glm::u16vec2` component). -/
abbrev U16 := Fin 65536

/-- Unsigned 32-bit integer (`glm::u32vec2` component). -/
abbrev U32 := Fin 4294967296

/-- The conversion `static_cast<GLsizei>(n)` of a `size_t` to a signed 32-bit
integer: the low 32 bits, read in two's complement. -/
def toGLsizei (n : Nat) : Int :=
  if n % 2 ^ 32 < 2 ^ 31 then ((n % 2 ^ 32 : Nat) : Int) else ((n % 2 ^ 32 : Nat) : Int) - 2 ^ 32

/-! ## Primitives, camera, frame slice

The `pod` structs, `Camera` and `Frame::primitives_t` are declared in headers;
only the members the renderer reads appear here. -/

namespace pod

/-- Modelled from the spec: the header declaring `pod::Circle` is not part of the
sources at hand.  Center, radius, RGBA color. -/
structure Circle where
  center : Vec2
  radius : F32
  color : Vec4
  deriving DecidableEq

/-- Modelled from the spec: the header declaring `pod::Rectangle` is not part of the
sources at hand.  Center, the two extent fields `w` and `h`, RGBA color. -/
structure Rectangle where
  center : Vec2
  w : F32
  h : F32
  color : Vec4
  deriving DecidableEq

/-- One vertex of a line in the layout `do_render_lines` declares
(stride of six floats: vec3 color, alpha, vec2 pos). -/
structure LineVertex where
  color : Vec3
  alpha : F32
  pos : Vec2
  deriving DecidableEq

/-- Modelled from the spec: the header declaring `pod::Line` is not part of the
sources at hand.  Two vertices in the layout of `do_render_lines`, so that a
list of `n` lines is `2 * n` vertices. -/
structure Line where
  a : LineVertex
  b : LineVertex
  deriving DecidableEq

end pod

/-- The camera, of which the renderer reads `proj_view()` only. -/
structure Camera where
  proj_view : Mat4

namespace Frame

/-- The frame slice `Frame::primitives_t`. -/
structure primitives_t where
  circles : List pod.Circle
  rectangles : List pod.Rectangle
  lines : List pod.Line

end Frame

/-! ## OpenGL context and call trace -/

/-- The four programs of `shaders_t`. -/
inductive ShaderId where
  | color | circle | lines | textured
  deriving DecidableEq

/-- Uniform names used by the renderer. -/
inductive Uniform where
  | model | color | radius2 | center | textured | tex_smp
  deriving DecidableEq

/-- Buffer binding targets. -/
inductive Target where
  | array | uniform
  deriving DecidableEq

inductive Usage where
  | staticDraw | dynamicDraw
  deriving DecidableEq

/-- Draw modes: `GL_TRIANGLE_STRIP`, `GL_LINES`. -/
inductive Mode where
  | triangleStrip | lines
  deriving DecidableEq

/-- Data store of a buffer object. -/
inductive BufData where
  | absent
  | uninit (bytes : Nat)
  | floats (fs : List F32)
  | lines (ls : List pod.Line)
  deriving DecidableEq

/-- Number of vertices a store of lines holds. -/
def BufData.lineVertices : BufData → Nat
  | .lines ls => 2 * ls.length
  | _ => 0

/-- Size of a store in bytes (`sizeof(float) = 4`, `sizeof(pod::Line) = 48`). -/
def BufData.bytes : BufData → Nat
  | .absent => 0
  | .uninit n => n
  | .floats fs => 4 * fs.length
  | .lines ls => 48 * ls.length

/-- One call made by the renderer. -/
inductive Cmd where
  | gen_vertex_array (h : Nat)
  | gen_buffer (h : Nat)
  | use (s : ShaderId)
  | set_int (s : ShaderId) (u : Uniform) (v : Int)
  | set_float (s : ShaderId) (u : Uniform) (v : F32)
  | set_vec3 (s : ShaderId) (u : Uniform) (v : Vec3)
  | set_vec4 (s : ShaderId) (u : Uniform) (v : Vec4)
  | set_mat4 (s : ShaderId) (u : Uniform) (v : Mat4)
  | bind_uniform_block (s : ShaderId) (slot : Nat)
  | glBindVertexArray (h : Nat)
  | glBindBuffer (t : Target) (h : Nat)
  | glBindBufferBase (t : Target) (index : Nat) (h : Nat)
  | glBufferData (t : Target) (d : BufData) (u : Usage)
  | glVertexAttribPointer (index size stride offset : Nat)
  | glEnableVertexAttribArray (index : Nat)
  | glDrawArrays (m : Mode) (first : Int) (count : Int)
  deriving DecidableEq

/-- The part of the OpenGL context the renderer touches. -/
structure GLState where
  /-- bound vertex array object -/
  vertexArray : Nat
  /-- buffer bound to `GL_ARRAY_BUFFER` (context state, not vertex-array state) -/
  arrayBuffer : Nat
  /-- buffer bound to the generic `GL_UNIFORM_BUFFER` point -/
  uniformBuffer : Nat
  /-- indexed `GL_UNIFORM_BUFFER` bindings -/
  uniformSlot : Nat → Nat
  /-- data store of each buffer object -/
  store : Nat → BufData
  /-- buffer each attribute of each vertex array sources: `attribBuffer vao index` -/
  attribBuffer : Nat → Nat → Nat

/-- A fresh context: nothing bound, no data store. -/
def GLState.fresh : GLState :=
  ⟨0, 0, 0, fun _ => 0, fun _ => .absent, fun _ _ => 0⟩

/-- Buffer bound to a target. -/
def GLState.bound (g : GLState) : Target → Nat
  | .array => g.arrayBuffer
  | .uniform => g.uniformBuffer

/-- The handles the resource manager hands out: its `k`-th call of
`gen_vertex_array` returns `vertex_array k`, its `k`-th call of `gen_buffer`
returns `buffer k`.  (`ResourceManager` wraps `glGenVertexArrays` and
`glGenBuffers`; its source is not at hand, so the handles are a parameter.) -/
structure ResourceManager where
  vertex_array : Nat → Nat
  buffer : Nat → Nat

/-- The struct `Renderer::render_attrs_t`. -/
structure render_attrs_t where
  grid_vao : Nat
  grid_vertex_count : Int
  rect_vao : Nat
  lines_vao : Nat
  uniform_buf : Nat
  grid_model : Mat4

/-- The renderer together with the world it acts on.  The member `area_size_` is a
float vector (`render_background` multiplies it by `0.5f`); the constructor
converts its `glm::u32vec2` argument. -/
structure Renderer where
  area_size_ : Vec2
  grid_cells_ : U16 × U16
  attr_ : render_attrs_t
  /-- calls of `gen_vertex_array` made so far on `mgr_` -/
  vaos_made : Nat
  /-- calls of `gen_buffer` made so far on `mgr_` -/
  bufs_made : Nat
  gl : GLState
  trace : List Cmd

/-! ## The calls -/

/-- Append one call to the trace. -/
def emit (c : Cmd) (r : Renderer) : Renderer :=
  { r with trace := r.trace ++ [c] }

/-- The call `mgr_->gen_vertex_array()`: the handle returned. -/
def gen_vertex_array_handle (mgr : ResourceManager) (r : Renderer) : Nat :=
  mgr.vertex_array r.vaos_made

/-- The call `mgr_->gen_vertex_array()`: the state after it. -/
def gen_vertex_array (mgr : ResourceManager) (r : Renderer) : Renderer :=
  emit (.gen_vertex_array (mgr.vertex_array r.vaos_made)) { r with vaos_made := r.vaos_made + 1 }

/-- The call `mgr_->gen_buffer()`: the handle returned. -/
def gen_buffer_handle (mgr : ResourceManager) (r : Renderer) : Nat :=
  mgr.buffer r.bufs_made

/-- The call `mgr_->gen_buffer()`: the state after it. -/
def gen_buffer (mgr : ResourceManager) (r : Renderer) : Renderer :=
  emit (.gen_buffer (mgr.buffer r.bufs_made)) { r with bufs_made := r.bufs_made + 1 }

def glBindVertexArray (h : Nat) (r : Renderer) : Renderer :=
  emit (.glBindVertexArray h) { r with gl := { r.gl with vertexArray := h } }

def glBindBuffer (t : Target) (h : Nat) (r : Renderer) : Renderer :=
  emit (.glBindBuffer t h)
    { r with gl := match t with
      | .array => { r.gl with arrayBuffer := h }
      | .uniform => { r.gl with uniformBuffer := h } }

/-- The call `glBindBufferBase(GL_UNIFORM_BUFFER, index, h)` sets the indexed
binding and the generic one. -/
def glBindBufferBase (index h : Nat) (r : Renderer) : Renderer :=
  emit (.glBindBufferBase .uniform index h)
    { r with gl := { r.gl with uniformBuffer := h,
                                uniformSlot := Function.update r.gl.uniformSlot index h } }

/-- The call `glBufferData(target, size, data, usage)` replaces the whole data store of
the buffer bound to `target`; with no buffer bound (name 0) it is an error
and changes nothing. -/
def glBufferData (t : Target) (d : BufData) (u : Usage) (r : Renderer) : Renderer :=
  emit (.glBufferData t d u)
    { r with gl :=
      if r.gl.bound t = 0 then r.gl
      else { r.gl with store := Function.update r.gl.store (r.gl.bound t) d } }

/-- The call `glVertexAttribPointer` records, in the bound vertex array, the buffer
bound to `GL_ARRAY_BUFFER` as the source of attribute `index`. -/
def glVertexAttribPointer (index size stride offset : Nat) (r : Renderer) : Renderer :=
  emit (.glVertexAttribPointer index size stride offset)
    { r with gl := { r.gl with
        attribBuffer := Function.update r.gl.attribBuffer r.gl.vertexArray
          (Function.update (r.gl.attribBuffer r.gl.vertexArray) index r.gl.arrayBuffer) } }

def glEnableVertexAttribArray (index : Nat) (r : Renderer) : Renderer :=
  emit (.glEnableVertexAttribArray index) r

def glDrawArrays (m : Mode) (first count : Int) (r : Renderer) : Renderer :=
  emit (.glDrawArrays m first count) r

/-- The float array `points` of the constructor: the unit quad, position and
texture coordinate per vertex. -/
def points : List F32 :=
  [F32.fin (-1), F32.fin (-1), 0, 0, 0,
   1, F32.fin (-1), 0, 1, 0,
   F32.fin (-1), 1, 0, 0, 1,
   1, 1, 0, 1, 1]

/-- The constructor `Renderer::Renderer(res, area_size, grid_cells)`, run in a fresh
context; `shaders_t()` is inlined. -/
def Renderer.new (mgr : ResourceManager) (area_size : U32 × U32) (grid_cells : U16 × U16) :
    Renderer :=
  let area : Vec2 := ⟨F32.ofNat area_size.1, F32.ofNat area_size.2⟩
  let r : Renderer :=
    { area_size_ := area
      grid_cells_ := grid_cells
      attr_ :=
        { grid_vao := 0, grid_vertex_count := 0, rect_vao := 0, lines_vao := 0, uniform_buf := 0
          grid_model := Mat4.scale Mat4.identity ⟨area.x, area.y, 1⟩ }
      vaos_made := 0
      bufs_made := 0
      gl := GLState.fresh
      trace := [] }
  -- shaders_t()
  let r := emit (.use .circle) r
  let r := emit (.set_int .circle .tex_smp 0) r
  let r := emit (.use .textured) r
  let r := emit (.set_int .textured .tex_smp 0) r
  -- unit quad
  let r := { gen_vertex_array mgr r with
             attr_ := { r.attr_ with rect_vao := gen_vertex_array_handle mgr r } }
  let vbo := gen_buffer_handle mgr r
  let r := gen_buffer mgr r
  let r := glBindVertexArray r.attr_.rect_vao r
  let r := glBindBuffer .array vbo r
  let r := glBufferData .array (.floats points) .staticDraw r
  let r := glVertexAttribPointer 0 3 20 0 r
  let r := glVertexAttribPointer 1 2 20 12 r
  let r := glEnableVertexAttribArray 0 r
  let r := glEnableVertexAttribArray 1 r
  let r := glBindVertexArray 0 r
  -- uniform buffer
  let r := { gen_buffer mgr r with
             attr_ := { r.attr_ with uniform_buf := gen_buffer_handle mgr r } }
  let r := glBindBuffer .uniform r.attr_.uniform_buf r
  let r := glBufferData .uniform (.uninit 64) .dynamicDraw r
  let r := glBindBuffer .uniform 0 r
  let r := glBindBufferBase 0 r.attr_.uniform_buf r
  let r := emit (.bind_uniform_block .color 0) r
  let r := emit (.bind_uniform_block .circle 0) r
  let r := emit (.bind_uniform_block .lines 0) r
  emit (.bind_uniform_block .textured 0) r

/-- The method `Renderer::update_frustum(cam)`. -/
def update_frustum (cam : Camera) (r : Renderer) : Renderer :=
  let r := glBindBuffer .uniform r.attr_.uniform_buf r
  let r := glBufferData .uniform (.floats cam.proj_view.toList) .dynamicDraw r
  glBindBuffer .uniform 0 r

/-- The method `Renderer::render_background(color)`. -/
def render_background (color : Vec3) (r : Renderer) : Renderer :=
  let r := emit (.use .color) r
  let model := Mat4.scale Mat4.identity
    ⟨F32.emul r.area_size_.x (F32.fin (1 / 2)), F32.emul r.area_size_.y (F32.fin (1 / 2)), 1⟩
  let model := Mat4.translate model ⟨1, 1, F32.round (-1 / 5)⟩
  let r := emit (.set_mat4 .color .model model) r
  let r := emit (.set_vec4 .color .color ⟨color.x, color.y, color.z, 1⟩) r
  let r := glBindVertexArray r.attr_.rect_vao r
  glDrawArrays .triangleStrip 0 4 r

/-- First loop of `render_grid`: for `i = 0 .. cells` push the two vertices
`(shift, 0, 0)` and `(shift, 1, 0)` of a vertical line, `shift = step * i`. -/
def grid_loop_x (step : F32) (cells : Nat) (grid : List F32) : List F32 :=
  (List.range (cells + 1)).foldl
    (fun grid i =>
      let shift := step * F32.ofNat i
      grid ++ [shift] ++ [0] ++ [0] ++ [shift] ++ [1] ++ [0])
    grid

/-- Second loop of `render_grid`: for `i = 0 .. cells` push the two vertices
`(0, shift, 0)` and `(1, shift, 0)` of a horizontal line. -/
def grid_loop_y (step : F32) (cells : Nat) (grid : List F32) : List F32 :=
  (List.range (cells + 1)).foldl
    (fun grid i =>
      let shift := step * F32.ofNat i
      grid ++ [0] ++ [shift] ++ [0] ++ [1] ++ [shift] ++ [0])
    grid

/-- The vector `grid` that `render_grid` fills on its first call. -/
def grid_floats (grid_cells : U16 × U16) : List F32 :=
  let step_x : F32 := 1 / F32.ofNat grid_cells.1.val
  let grid := grid_loop_x step_x grid_cells.1.val []
  let step_y : F32 := 1 / F32.ofNat grid_cells.2.val
  grid_loop_y step_y grid_cells.2.val grid

/-- The method `Renderer::render_grid(color)`. -/
def render_grid (mgr : ResourceManager) (color : Vec3) (r : Renderer) : Renderer :=
  let r := emit (.use .color) r
  let r := emit (.set_mat4 .color .model r.attr_.grid_model) r
  let r := emit (.set_vec4 .color .color ⟨color.x, color.y, color.z, 1⟩) r
  let r :=
    if r.attr_.grid_vao = 0 then
      let r := { gen_vertex_array mgr r with
                 attr_ := { r.attr_ with grid_vao := gen_vertex_array_handle mgr r } }
      let vbo := gen_buffer_handle mgr r
      let r := gen_buffer mgr r
      let grid := grid_floats r.grid_cells_
      let r := { r with attr_ := { r.attr_ with grid_vertex_count := toGLsizei (grid.length / 3) } }
      let r := glBindVertexArray r.attr_.grid_vao r
      let r := glBindBuffer .array vbo r
      let r := glBufferData .array (.floats grid) .staticDraw r
      let r := glVertexAttribPointer 0 3 12 0 r
      let r := glEnableVertexAttribArray 0 r
      glBindVertexArray 0 r
    else r
  let r := glBindVertexArray r.attr_.grid_vao r
  glDrawArrays .lines 0 r.attr_.grid_vertex_count r

/-- The method `Renderer::do_render_circle(circle)`. -/
def do_render_circle (circle : pod.Circle) (r : Renderer) : Renderer :=
  let vcenter : Vec3 := ⟨circle.center.x, circle.center.y, 0⟩
  let model := Mat4.translate Mat4.identity vcenter
  let model := Mat4.scale model ⟨circle.radius, circle.radius, 1⟩
  let r := emit (.set_float .circle .radius2 (circle.radius * circle.radius)) r
  let r := emit (.set_vec3 .circle .center vcenter) r
  let r := emit (.set_vec4 .circle .color circle.color) r
  let r := emit (.set_mat4 .circle .model model) r
  let r := glBindVertexArray r.attr_.rect_vao r
  glDrawArrays .triangleStrip 0 4 r

/-- The method `Renderer::do_render_rectangle(rect)`. -/
def do_render_rectangle (rect : pod.Rectangle) (r : Renderer) : Renderer :=
  let model := Mat4.translate Mat4.identity ⟨rect.center.x, rect.center.y, 0⟩
  let model := Mat4.scale model
    ⟨F32.emul rect.w (F32.fin (1 / 2)), F32.emul rect.h (F32.fin (1 / 2)), 1⟩
  let r := emit (.set_mat4 .color .model model) r
  let r := emit (.set_vec4 .color .color rect.color) r
  let r := glBindVertexArray r.attr_.rect_vao r
  glDrawArrays .triangleStrip 0 4 r

/-- The method `Renderer::do_render_lines(lines)`. -/
def do_render_lines (mgr : ResourceManager) (lines : List pod.Line) (r : Renderer) : Renderer :=
  let r :=
    if r.attr_.lines_vao = 0 then
      let r := { gen_vertex_array mgr r with
                 attr_ := { r.attr_ with lines_vao := gen_vertex_array_handle mgr r } }
      let vbo := gen_buffer_handle mgr r
      let r := gen_buffer mgr r
      let r := glBindVertexArray r.attr_.lines_vao r
      let r := glBindBuffer .array vbo r
      let r := glVertexAttribPointer 0 2 24 16 r
      let r := glVertexAttribPointer 1 3 24 0 r
      let r := glEnableVertexAttribArray 0 r
      let r := glEnableVertexAttribArray 1 r
      glBindVertexArray 0 r
    else r
  let r := glBindVertexArray r.attr_.lines_vao r
  let r := glBufferData .array (.lines lines) .dynamicDraw r
  glDrawArrays .lines 0 (toGLsizei (lines.length * 2)) r

/-- The method `Renderer::render_frame_layer(slice)`. -/
def render_frame_layer (mgr : ResourceManager) (slice : Frame.primitives_t) (r : Renderer) :
    Renderer :=
  let r :=
    if !slice.circles.isEmpty then
      let r := emit (.use .circle) r
      let r := emit (.set_int .circle .textured 0) r
      slice.circles.foldl (fun r obj => do_render_circle obj r) r
    else r
  let r :=
    if !slice.rectangles.isEmpty then
      let r := emit (.use .color) r
      slice.rectangles.foldl (fun r obj => do_render_rectangle obj r) r
    else r
  if !slice.lines.isEmpty then
    let r := emit (.use .lines) r
    do_render_lines mgr slice.lines r
  else r

/-- A call of one of the public operations. -/
inductive Op where
  | update_frustum (cam : Camera)
  | render_background (color : Vec3)
  | render_grid (color : Vec3)
  | render_frame_layer (slice : Frame.primitives_t)

/-- Perform one public operation. -/
def Op.step (mgr : ResourceManager) (r : Renderer) : Op → Renderer
  | .update_frustum cam => Rewind.update_frustum cam r
  | .render_background color => Rewind.render_background color r
  | .render_grid color => Rewind.render_grid mgr color r
  | .render_frame_layer slice => Rewind.render_frame_layer mgr slice r

/-- Perform a sequence of public operations, first to last. -/
def run (mgr : ResourceManager) (ops : List Op) (r : Renderer) : Renderer :=
  ops.foldl (Op.step mgr) r

/-! ## The call sequences the specification describes -/

/-- The model matrix of a circle: translate by the center, then scale by the radius. -/
def circle_model (c : pod.Circle) : Mat4 :=
  Mat4.scale (Mat4.translate Mat4.identity ⟨c.center.x, c.center.y, 0⟩) ⟨c.radius, c.radius, 1⟩

/-- The calls one circle contributes: its uniforms, then the draw of the unit quad. -/
def circle_calls (rect_vao : Nat) (c : pod.Circle) : List Cmd :=
  [.set_float .circle .radius2 (c.radius * c.radius),
   .set_vec3 .circle .center ⟨c.center.x, c.center.y, 0⟩,
   .set_vec4 .circle .color c.color,
   .set_mat4 .circle .model (circle_model c),
   .glBindVertexArray rect_vao,
   .glDrawArrays .triangleStrip 0 4]

/-- The model matrix of a rectangle: translate by the center, then scale by half of
`w` and half of `h`. -/
def rectangle_model (rc : pod.Rectangle) : Mat4 :=
  Mat4.scale (Mat4.translate Mat4.identity ⟨rc.center.x, rc.center.y, 0⟩)
    ⟨F32.emul rc.w (F32.fin (1 / 2)), F32.emul rc.h (F32.fin (1 / 2)), 1⟩

/-- The calls one rectangle contributes: its uniforms, then the draw of the unit quad. -/
def rectangle_calls (rect_vao : Nat) (rc : pod.Rectangle) : List Cmd :=
  [.set_mat4 .color .model (rectangle_model rc),
   .set_vec4 .color .color rc.color,
   .glBindVertexArray rect_vao,
   .glDrawArrays .triangleStrip 0 4]

/-- The block of the circles: nothing for an empty group, else one bind of the
circle shader, the "not textured" flag, and the calls of each circle in order. -/
def circles_block (rect_vao : Nat) (cs : List pod.Circle) : List Cmd :=
  if cs.isEmpty then []
  else [.use .circle, .set_int .circle .textured 0] ++ cs.flatMap (circle_calls rect_vao)

/-- The block of the rectangles: nothing for an empty group, else one bind of the
flat-color shader and the calls of each rectangle in order. -/
def rectangles_block (rect_vao : Nat) (rs : List pod.Rectangle) : List Cmd :=
  if rs.isEmpty then []
  else [.use .color] ++ rs.flatMap (rectangle_calls rect_vao)

/-- The calls that create the vertex layout of the lines, `vao` and `vbo` being the
fresh handles. -/
def lines_setup_calls (vao vbo : Nat) : List Cmd :=
  [.gen_vertex_array vao, .gen_buffer vbo, .glBindVertexArray vao, .glBindBuffer .array vbo,
   .glVertexAttribPointer 0 2 24 16, .glVertexAttribPointer 1 3 24 0,
   .glEnableVertexAttribArray 0, .glEnableVertexAttribArray 1, .glBindVertexArray 0]

/-- The calls every line draw ends with: bind the layout, upload the list, one draw. -/
def lines_draw_calls (vao : Nat) (ls : List pod.Line) : List Cmd :=
  [.glBindVertexArray vao, .glBufferData .array (.lines ls) .dynamicDraw,
   .glDrawArrays .lines 0 (toGLsizei (ls.length * 2))]

/-- The calls of `do_render_lines` in state `r`: the setup when the layout does not
exist yet, then the draw. -/
def lines_calls (mgr : ResourceManager) (r : Renderer) (ls : List pod.Line) : List Cmd :=
  if r.attr_.lines_vao = 0 then
    lines_setup_calls (mgr.vertex_array r.vaos_made) (mgr.buffer r.bufs_made)
      ++ lines_draw_calls (mgr.vertex_array r.vaos_made) ls
  else lines_draw_calls r.attr_.lines_vao ls

/-- The block of the lines: nothing for an empty group, else one bind of the line
shader and the calls of `do_render_lines`. -/
def lines_block (mgr : ResourceManager) (r : Renderer) (ls : List pod.Line) : List Cmd :=
  if ls.isEmpty then [] else [.use .lines] ++ lines_calls mgr r ls

/-- The calls of a `render_grid` that finds the geometry built. -/
def grid_draw_calls (r : Renderer) (color : Vec3) : List Cmd :=
  [.use .color, .set_mat4 .color .model r.attr_.grid_model,
   .set_vec4 .color .color ⟨color.x, color.y, color.z, 1⟩,
   .glBindVertexArray r.attr_.grid_vao,
   .glDrawArrays .lines 0 r.attr_.grid_vertex_count]

/-- The calls of a `render_grid` that builds the geometry, `vao` and `vbo` being the
fresh handles. -/
def grid_build_calls (r : Renderer) (color : Vec3) (vao vbo : Nat) : List Cmd :=
  [.use .color, .set_mat4 .color .model r.attr_.grid_model,
   .set_vec4 .color .color ⟨color.x, color.y, color.z, 1⟩,
   .gen_vertex_array vao, .gen_buffer vbo,
   .glBindVertexArray vao, .glBindBuffer .array vbo,
   .glBufferData .array (.floats (grid_floats r.grid_cells_)) .staticDraw,
   .glVertexAttribPointer 0 3 12 0, .glEnableVertexAttribArray 0, .glBindVertexArray 0,
   .glBindVertexArray vao,
   .glDrawArrays .lines 0 (toGLsizei ((grid_floats r.grid_cells_).length / 3))]

/-- Is the call a draw call. -/
def Cmd.isDraw : Cmd → Bool
  | .glDrawArrays _ _ _ => true
  | _ => false

/-- Is the call a `gen_vertex_array`. -/
def Cmd.isGenVertexArray : Cmd → Bool
  | .gen_vertex_array _ => true
  | _ => false

/-- Is the call a `gen_buffer`. -/
def Cmd.isGenBuffer : Cmd → Bool
  | .gen_buffer _ => true
  | _ => false

/-- Is the call a buffer upload. -/
def Cmd.isUpload : Cmd → Bool
  | .glBufferData _ _ _ => true
  | _ => false

/-- What is left of a call when only shader binds and draws are observed. -/
inductive Event where
  | bind (s : ShaderId)
  | draw (m : Mode) (count : Int)
  deriving DecidableEq

/-- The shader binds and draws of a call sequence, in order. -/
def events (cs : List Cmd) : List Event :=
  cs.filterMap fun
    | .use s => some (.bind s)
    | .glDrawArrays m _ count => some (.draw m count)
    | _ => none

/-- Is the operation a `render_grid`. -/
def Op.isGrid : Op → Bool
  | .render_grid _ => true
  | _ => false

/-! ## Auxiliary definitions for the statements -/

/-- The state before the lines of a slice are drawn. -/
def before_lines (slice : Frame.primitives_t) (r : Renderer) : Renderer :=
  { r with
    gl := { r.gl with
            vertexArray :=
              if slice.circles.isEmpty && slice.rectangles.isEmpty then r.gl.vertexArray
              else r.attr_.rect_vao }
    trace := r.trace ++ circles_block r.attr_.rect_vao slice.circles
               ++ rectangles_block r.attr_.rect_vao slice.rectangles }

/-- What no public operation changes. -/
def Renderer.keeps (r r' : Renderer) : Prop :=
  r'.area_size_ = r.area_size_ ∧ r'.grid_cells_ = r.grid_cells_ ∧
  r'.attr_.rect_vao = r.attr_.rect_vao ∧ r'.attr_.uniform_buf = r.attr_.uniform_buf ∧
  r'.attr_.grid_model = r.attr_.grid_model ∧ r'.gl.uniformSlot = r.gl.uniformSlot

/-- The two vertices of the vertical line number `i`. -/
def vertical_line (step : F32) (i : Nat) : List F32 :=
  [step * F32.ofNat i, 0, 0, step * F32.ofNat i, 1, 0]

/-- The two vertices of the horizontal line number `i`. -/
def horizontal_line (step : F32) (i : Nat) : List F32 :=
  [0, step * F32.ofNat i, 0, 1, step * F32.ofNat i, 0]

/-- The positions a vertex layout of stride five floats with a three-float position
at offset 0 reads from a float array (the layout the constructor declares for
`rect_vao`). -/
def attrib_positions : List F32 → List Vec3
  | x :: y :: z :: _ :: _ :: rest => ⟨x, y, z⟩ :: attrib_positions rest
  | _ => []

/-- The four corners of the unit quad, as stored in `points`. -/
def quad_corners : List Vec3 := attrib_positions points

/-- The matrix stored as 16 floats in memory order, if the list has that length. -/
def Mat4.ofList : List F32 → Option Mat4
  | [a0, a1, a2, a3, b0, b1, b2, b3, c0, c1, c2, c3, d0, d1, d2, d3] =>
    some ⟨⟨a0, a1, a2, a3⟩, ⟨b0, b1, b2, b3⟩, ⟨c0, c1, c2, c3⟩, ⟨d0, d1, d2, d3⟩⟩
  | _ => none

/-- Reading a data store back as one 4x4 float matrix. -/
def BufData.readMat4 : BufData → Option Mat4
  | .floats fs => Mat4.ofList fs
  | _ => none


/-- The buffer the vertex layout of the lines reads its positions from. -/
def line_buffer (r : Renderer) : Nat := r.gl.attribBuffer r.attr_.lines_vao 0

/-- The line layout does not exist yet, or the buffer it reads (both attributes) is
the buffer bound to `GL_ARRAY_BUFFER`. -/
def lines_safe (r : Renderer) : Prop :=
  r.attr_.lines_vao = 0 ∨
    (r.gl.arrayBuffer ≠ 0 ∧ r.gl.attribBuffer r.attr_.lines_vao 0 = r.gl.arrayBuffer ∧
      r.gl.attribBuffer r.attr_.lines_vao 1 = r.gl.arrayBuffer)

/-! ## Concrete inputs -/

/-- A resource manager handing out the handles 1, 2, 3, ... -/
def mgr0 : ResourceManager := ⟨fun k => k + 1, fun k => k + 1⟩

/-- A renderer for an 800 x 600 area with a 3 x 2 grid. -/
def r0 : Renderer := Renderer.new mgr0 (800, 600) (3, 2)


/-- A renderer for an area whose width is not a float. -/
def r_wide : Renderer := Renderer.new mgr0 (16777217, 600) (3, 2)

/-- A camera whose matrix is the identity. -/
def cam0 : Camera := ⟨Mat4.identity⟩

/-- A red line segment. -/
def l1 : pod.Line := ⟨⟨⟨1, 0, 0⟩, 1, ⟨0, 0⟩⟩, ⟨⟨1, 0, 0⟩, 1, ⟨1, 1⟩⟩⟩

/-- A green line segment. -/
def l2 : pod.Line := ⟨⟨⟨0, 1, 0⟩, 1, ⟨2, 2⟩⟩, ⟨⟨0, 1, 0⟩, 1, ⟨3, 3⟩⟩⟩

/-- A blue line segment. -/
def l3 : pod.Line := ⟨⟨⟨0, 0, 1⟩, 1, ⟨4, 4⟩⟩, ⟨⟨0, 0, 1⟩, 1, ⟨5, 5⟩⟩⟩

/-- The renderer `r0` after a first frame layer holding the two lines `l1`, `l2`. -/
def after_first_lines : Renderer := render_frame_layer mgr0 ⟨[], [], [l1, l2]⟩ r0

/-- The state `after_first_lines` after the first call of `render_grid`. -/
def after_first_grid : Renderer := render_grid mgr0 ⟨1, 1, 1⟩ after_first_lines

/-- The state `after_first_grid` after a second frame layer holding the line `l3`. -/
def after_second_lines : Renderer := render_frame_layer mgr0 ⟨[], [], [l3]⟩ after_first_grid

/-- A list of 2^30 line segments. -/
def many_lines : List pod.Line := List.replicate 1073741824 l1

/-! ## Basic facts -/

theorem F32.zero_eq : (0 : F32) = F32.fin 0 := by
  show F32.fin ((0 : Nat) : ℚ) = F32.fin 0
  simp

theorem F32.one_eq : (1 : F32) = F32.fin 1 := by
  show F32.fin ((1 : Nat) : ℚ) = F32.fin 1
  simp

theorem F32.emul_fin (a b : ℚ) : F32.emul (F32.fin a) (F32.fin b) = F32.fin (a * b) := rfl

theorem F32.eadd_fin (a b : ℚ) : F32.eadd (F32.fin a) (F32.fin b) = F32.fin (a + b) := rfl

theorem F32.fin_mul_fin (a b : ℚ) : F32.fin a * F32.fin b = F32.round (a * b) := rfl

/-! ### Rounding -/

namespace F32

theorem rne_intCast (z : ℤ) : rne (z : ℚ) = z := by
  simp [rne]

theorem rne_eq_of_lt (s : ℚ) (m : ℤ) (h1 : (m : ℚ) - 1 / 2 < s) (h2 : s < m + 1 / 2) :
    rne s = m := by
  by_cases hs : (m : ℚ) ≤ s
  · have hf : ⌊s⌋ = m := Int.floor_eq_iff.2 ⟨hs, by linarith⟩
    have h3 : s - (m : ℚ) < 1 / 2 := by linarith
    rw [rne, hf, if_pos h3]
  · have hs' : s < m := lt_of_not_le hs
    have hf : ⌊s⌋ = m - 1 := Int.floor_eq_iff.2 ⟨by push_cast; linarith, by push_cast; linarith⟩
    have h3 : ¬ (s - ((m - 1 : ℤ) : ℚ) < 1 / 2) := by push_cast; linarith
    have h4 : 1 / 2 < s - ((m - 1 : ℤ) : ℚ) := by push_cast; linarith
    rw [rne, hf, if_neg h3, if_pos h4]; ring

theorem rne_half_even (m : ℤ) (h : m % 2 = 0) : rne ((m : ℚ) + 1 / 2) = m := by
  have hf : ⌊(m : ℚ) + 1 / 2⌋ = m := Int.floor_eq_iff.2 ⟨by linarith, by linarith⟩
  have h3 : ¬ ((m : ℚ) + 1 / 2 - (m : ℚ) < 1 / 2) := by norm_num
  have h4 : ¬ (1 / 2 < (m : ℚ) + 1 / 2 - (m : ℚ)) := by norm_num
  rw [rne, hf, if_neg h3, if_neg h4, if_pos h]

theorem rne_le (s : ℚ) : (rne s : ℚ) ≤ s + 1 := by
  have h := Int.floor_le s
  unfold rne
  split_ifs <;> push_cast <;> linarith

theorem log_eq_of (a : ℚ) (e : ℤ) (h1 : (2 : ℚ) ^ e ≤ a) (h2 : a < 2 ^ (e + 1)) :
    Int.log 2 a = e := by
  have hpos : 0 < a := lt_of_lt_of_le (by positivity) h1
  have ha : e ≤ Int.log 2 a := (Int.zpow_le_iff_le_log (by norm_num) hpos).1 (by exact_mod_cast h1)
  have hb : Int.log 2 a < e + 1 :=
    (Int.lt_zpow_iff_log_lt (by norm_num) hpos).1 (by exact_mod_cast h2)
  omega

/-- Evaluation of `round` once the binade of `|q|` and the rounded significand are known. -/
theorem round_eq_of (q : ℚ) (e m : ℤ) (h1 : (2 : ℚ) ^ e ≤ |q|) (h2 : |q| < 2 ^ (e + 1))
    (he : -126 ≤ e) (hm : rne (|q| / 2 ^ (e - 23)) = m)
    (hv : (m : ℚ) * 2 ^ (e - 23) < 2 ^ 128) :
    round q = fin (if q < 0 then -((m : ℚ) * 2 ^ (e - 23)) else (m : ℚ) * 2 ^ (e - 23)) := by
  have hu : ulpExp |q| = e - 23 := by
    rw [ulpExp, log_eq_of _ e h1 h2]; omega
  simp only [round, hu, hm]
  rw [if_neg (not_le.2 hv)]


theorem round_eq_inf_of (q : ℚ) (e m : ℤ) (h1 : (2 : ℚ) ^ e ≤ |q|) (h2 : |q| < 2 ^ (e + 1))
    (he : -126 ≤ e) (hm : rne (|q| / 2 ^ (e - 23)) = m)
    (hv : (2 : ℚ) ^ 128 ≤ (m : ℚ) * 2 ^ (e - 23)) :
    round q = inf (decide (q < 0)) := by
  have hu : ulpExp |q| = e - 23 := by
    rw [ulpExp, log_eq_of _ e h1 h2]; omega
  simp only [round, hu, hm]
  rw [if_pos hv]

theorem round_zero : round 0 = fin 0 := by
  simp [round, rne]

/-- The literal `-0.2f`. -/
theorem round_neg_fifth : round (-1 / 5) = fin (-13421773 / 67108864) := by
  have ha : |(-1 / 5 : ℚ)| = 1 / 5 := by norm_num [abs_of_neg]
  have hm : rne (|(-1 / 5 : ℚ)| / 2 ^ ((-3 : ℤ) - 23)) = 13421773 := by
    rw [ha]; apply rne_eq_of_lt <;> norm_num
  rw [round_eq_of (-1 / 5) (-3) 13421773 (by rw [ha]; norm_num) (by rw [ha]; norm_num)
    (by norm_num) hm (by norm_num)]
  norm_num

/-- The product `0.1f * 0.1f` is not the exact square. -/
theorem round_tenth_sq :
    round (13421773 / 134217728 * (13421773 / 134217728)) = fin (10737419 / 1073741824) := by
  have ha : |(13421773 / 134217728 * (13421773 / 134217728) : ℚ)|
      = 13421773 / 134217728 * (13421773 / 134217728) := abs_of_pos (by norm_num)
  have hm : rne (|(13421773 / 134217728 * (13421773 / 134217728) : ℚ)| / 2 ^ ((-7 : ℤ) - 23))
      = 10737419 := by
    rw [ha]; apply rne_eq_of_lt <;> norm_num
  rw [round_eq_of _ (-7) 10737419 (by rw [ha]; norm_num) (by rw [ha]; norm_num)
    (by norm_num) hm (by norm_num)]
  norm_num

/-- The product `1e20f * 1e20f` overflows. -/
theorem round_1e20_sq :
    round (100000002004087734272 * 100000002004087734272) = inf false := by
  have ha : |(100000002004087734272 * 100000002004087734272 : ℚ)|
      = 100000002004087734272 * 100000002004087734272 := abs_of_pos (by norm_num)
  have hm : rne (|(100000002004087734272 * 100000002004087734272 : ℚ)| / 2 ^ ((132 : ℤ) - 23))
      = 15407440 := by
    rw [ha]; apply rne_eq_of_lt <;> norm_num
  rw [round_eq_inf_of _ 132 15407440 (by rw [ha]; norm_num) (by rw [ha]; norm_num)
    (by norm_num) hm (by norm_num)]
  norm_num

theorem round_16777217 : round 16777217 = fin 16777216 := by
  have ha : |(16777217 : ℚ)| = 16777217 := abs_of_pos (by norm_num)
  have hm : rne (|(16777217 : ℚ)| / 2 ^ ((24 : ℤ) - 23)) = 8388608 := by
    rw [ha]
    have := rne_half_even 8388608 (by norm_num)
    convert this using 2
    norm_num
  rw [round_eq_of _ 24 8388608 (by rw [ha]; norm_num) (by rw [ha]; norm_num)
    (by norm_num) hm (by norm_num)]
  norm_num


theorem log_natCast_bounds (n : ℕ) (hn : 0 < n) (k : ℕ) (h : n < 2 ^ k) :
    0 ≤ Int.log 2 (n : ℚ) ∧ Int.log 2 (n : ℚ) < k := by
  have hpos : (0 : ℚ) < n := by exact_mod_cast hn
  constructor
  · refine (Int.zpow_le_iff_le_log (by norm_num) hpos).1 ?_
    have : (1 : ℚ) ≤ n := by exact_mod_cast hn
    simpa using this
  · refine (Int.lt_zpow_iff_log_lt (by norm_num) hpos).1 ?_
    have : (n : ℚ) < 2 ^ k := by exact_mod_cast h
    simpa using this

/-- Values up to `2 ^ 24` convert to float exactly. -/
theorem round_natCast_of_le (n : ℕ) (h : n ≤ 2 ^ 24) : round (n : ℚ) = fin n := by
  rcases Nat.eq_zero_or_pos n with h0 | hn
  · subst h0; simpa using round_zero
  have hpos : (0 : ℚ) < n := by exact_mod_cast hn
  have hab : |(n : ℚ)| = n := abs_of_pos hpos
  obtain ⟨hl0, hl1⟩ := log_natCast_bounds n hn 25 (by omega)
  have hlo : (2 : ℚ) ^ Int.log 2 (n : ℚ) ≤ n := by
    have := Int.zpow_log_le_self (b := 2) (r := (n : ℚ)) (by norm_num) hpos
    simpa using this
  have hle : (n : ℚ) ≤ 16777216 := by exact_mod_cast h
  have hu : ulpExp (n : ℚ) = Int.log 2 (n : ℚ) - 23 := by rw [ulpExp]; omega
  have key : ∃ z : ℤ, (n : ℚ) / 2 ^ (Int.log 2 (n : ℚ) - 23) = (z : ℚ) := by
    generalize Int.log 2 (n : ℚ) = e at hl0 hl1 hlo
    by_cases he : e ≤ 23
    · obtain ⟨k, hk⟩ : ∃ k : ℕ, e - 23 = -(k : ℤ) := ⟨(23 - e).toNat, by omega⟩
      refine ⟨(n : ℤ) * 2 ^ k, ?_⟩
      rw [hk, zpow_neg, zpow_natCast]
      push_cast
      field_simp
    · have he24 : e = 24 := by omega
      subst he24
      have h24 : (n : ℚ) = 16777216 := le_antisymm hle (by norm_num at hlo; exact_mod_cast hlo)
      exact ⟨8388608, by rw [h24]; norm_num⟩
  obtain ⟨z, hz⟩ := key
  have hv : ¬ ((2 : ℚ) ^ 128 ≤ n) := by
    have : (n : ℚ) < 2 ^ 128 := lt_of_le_of_lt hle (by norm_num)
    exact not_le.2 this
  have hzv : (z : ℚ) * 2 ^ (Int.log 2 (n : ℚ) - 23) = n := by
    rw [← hz]; field_simp
  simp only [round, hab, hu, hz, rne_intCast, hzv, if_neg hv]
  rw [if_neg (not_lt.2 hpos.le)]


/-- Every unsigned 32-bit value converts to a finite float. -/
theorem round_natCast_finite (n : ℕ) (h : n < 2 ^ 32) : ∃ A : ℚ, round (n : ℚ) = fin A := by
  have hn0 : (0 : ℚ) ≤ n := Nat.cast_nonneg n
  have hab : |(n : ℚ)| = n := abs_of_nonneg hn0
  have hp : ulpExp (n : ℚ) ≤ 8 := by
    rcases Nat.eq_zero_or_pos n with h0 | hn
    · subst h0; simp [ulpExp]
    · have := (log_natCast_bounds n hn 32 h).2
      rw [ulpExp]; omega
  have h2p : (2 : ℚ) ^ ulpExp (n : ℚ) ≤ 2 ^ (8 : ℤ) := zpow_le_zpow_right₀ (by norm_num) hp
  have h2pos : (0 : ℚ) < 2 ^ ulpExp (n : ℚ) := by positivity
  have hr := rne_le ((n : ℚ) / 2 ^ ulpExp (n : ℚ))
  have hv : (rne ((n : ℚ) / 2 ^ ulpExp (n : ℚ)) : ℚ) * 2 ^ ulpExp (n : ℚ) < 2 ^ 128 := by
    have h1 : (rne ((n : ℚ) / 2 ^ ulpExp (n : ℚ)) : ℚ) * 2 ^ ulpExp (n : ℚ)
        ≤ ((n : ℚ) / 2 ^ ulpExp (n : ℚ) + 1) * 2 ^ ulpExp (n : ℚ) :=
      mul_le_mul_of_nonneg_right hr h2pos.le
    have h3 : ((n : ℚ) / 2 ^ ulpExp (n : ℚ) + 1) * 2 ^ ulpExp (n : ℚ)
        = n + 2 ^ ulpExp (n : ℚ) := by field_simp
    have h4 : (n : ℚ) < 4294967296 := by exact_mod_cast h
    norm_num at h2p ⊢
    linarith
  refine ⟨(rne ((n : ℚ) / 2 ^ ulpExp (n : ℚ)) : ℚ) * 2 ^ ulpExp (n : ℚ), ?_⟩
  simp only [round, hab]
  rw [if_neg (not_le.2 hv), if_neg (not_lt.2 hn0)]

theorem ofNat_zero : ofNat 0 = fin 0 := by
  simpa [ofNat] using round_zero

/-- The float product `0.1f * 0.1f`: rounded, not the exact square. -/
theorem mul_tenth :
    fin (13421773 / 134217728) * fin (13421773 / 134217728) = fin (10737419 / 1073741824) :=
  round_tenth_sq

/-- The float product `1e20f * 1e20f`: infinite. -/
theorem mul_1e20 : fin 100000002004087734272 * fin 100000002004087734272 = inf false :=
  round_1e20_sq

/-- The conversion of `16777217` to float. -/
theorem ofNat_16777217 : ofNat 16777217 = fin 16777216 := by
  simpa [ofNat] using round_16777217

/-- Where the exact product is a float, the IEEE product is the exact one. -/
theorem mul_eq_emul_of_exact (a b : ℚ) (h : round (a * b) = fin (a * b)) :
    fin a * fin b = emul (fin a) (fin b) := h

end F32

/-! ### The operations -/

/-- The state after `do_render_circle`: the quad layout is bound, the calls are appended. -/
theorem do_render_circle_eq (c : pod.Circle) (r : Renderer) :
    do_render_circle c r =
      { r with gl := { r.gl with vertexArray := r.attr_.rect_vao }
               trace := r.trace ++ circle_calls r.attr_.rect_vao c } := by
  simp [do_render_circle, emit, glBindVertexArray, glDrawArrays, circle_calls, circle_model]

theorem do_render_rectangle_eq (rc : pod.Rectangle) (r : Renderer) :
    do_render_rectangle rc r =
      { r with gl := { r.gl with vertexArray := r.attr_.rect_vao }
               trace := r.trace ++ rectangle_calls r.attr_.rect_vao rc } := by
  simp [do_render_rectangle, emit, glBindVertexArray, glDrawArrays, rectangle_calls,
    rectangle_model]

theorem foldl_do_render_circle (cs : List pod.Circle) (r : Renderer) :
    cs.foldl (fun r obj => do_render_circle obj r) r =
      { r with gl := { r.gl with
                         vertexArray := if cs.isEmpty then r.gl.vertexArray else r.attr_.rect_vao }
               trace := r.trace ++ cs.flatMap (circle_calls r.attr_.rect_vao) } := by
  induction cs generalizing r with
  | nil => simp
  | cons c cs ih =>
    rw [List.foldl_cons, ih, do_render_circle_eq]
    simp

theorem foldl_do_render_rectangle (rs : List pod.Rectangle) (r : Renderer) :
    rs.foldl (fun r obj => do_render_rectangle obj r) r =
      { r with gl := { r.gl with
                         vertexArray := if rs.isEmpty then r.gl.vertexArray else r.attr_.rect_vao }
               trace := r.trace ++ rs.flatMap (rectangle_calls r.attr_.rect_vao) } := by
  induction rs generalizing r with
  | nil => simp
  | cons c cs ih =>
    rw [List.foldl_cons, ih, do_render_rectangle_eq]
    simp

theorem do_render_lines_trace (mgr : ResourceManager) (ls : List pod.Line) (r : Renderer) :
    (do_render_lines mgr ls r).trace = r.trace ++ lines_calls mgr r ls := by
  by_cases h : r.attr_.lines_vao = 0 <;>
    simp [do_render_lines, lines_calls, lines_setup_calls, lines_draw_calls, h, emit,
      gen_vertex_array, gen_vertex_array_handle, gen_buffer, gen_buffer_handle,
      glBindVertexArray, glBindBuffer, glBufferData, glVertexAttribPointer,
      glEnableVertexAttribArray, glDrawArrays]

/-- What `do_render_lines` leaves alone. -/
theorem do_render_lines_frame (mgr : ResourceManager) (ls : List pod.Line) (r : Renderer) :
    (do_render_lines mgr ls r).area_size_ = r.area_size_ ∧
    (do_render_lines mgr ls r).grid_cells_ = r.grid_cells_ ∧
    (do_render_lines mgr ls r).attr_.grid_vao = r.attr_.grid_vao ∧
    (do_render_lines mgr ls r).attr_.grid_vertex_count = r.attr_.grid_vertex_count ∧
    (do_render_lines mgr ls r).attr_.rect_vao = r.attr_.rect_vao ∧
    (do_render_lines mgr ls r).attr_.uniform_buf = r.attr_.uniform_buf ∧
    (do_render_lines mgr ls r).attr_.grid_model = r.attr_.grid_model ∧
    (do_render_lines mgr ls r).gl.uniformSlot = r.gl.uniformSlot := by
  by_cases h : r.attr_.lines_vao = 0 <;>
    simp [do_render_lines, h, emit,
      gen_vertex_array, gen_vertex_array_handle, gen_buffer, gen_buffer_handle,
      glBindVertexArray, glBindBuffer, glBufferData, glVertexAttribPointer,
      glEnableVertexAttribArray, glDrawArrays] <;>
    split_ifs <;> simp

theorem render_frame_layer_eq (mgr : ResourceManager) (slice : Frame.primitives_t)
    (r : Renderer) :
    render_frame_layer mgr slice r =
      if slice.lines.isEmpty then before_lines slice r
      else do_render_lines mgr slice.lines (emit (.use .lines) (before_lines slice r)) := by
  obtain ⟨cs, rs, ls⟩ := slice
  simp only [render_frame_layer, foldl_do_render_circle, foldl_do_render_rectangle, before_lines,
    circles_block, rectangles_block, emit]
  rcases cs with _ | ⟨c, cs⟩ <;> rcases rs with _ | ⟨rc, rs⟩ <;> rcases ls with _ | ⟨l, ls⟩ <;>
    simp

theorem Renderer.keeps_refl (r : Renderer) : r.keeps r := by
  simp [Renderer.keeps]

theorem Renderer.keeps_trans {a b c : Renderer} (h1 : a.keeps b) (h2 : b.keeps c) : a.keeps c := by
  obtain ⟨h11, h12, h13, h14, h15, h16⟩ := h1
  obtain ⟨h21, h22, h23, h24, h25, h26⟩ := h2
  exact ⟨h21.trans h11, h22.trans h12, h23.trans h13, h24.trans h14, h25.trans h15,
    h26.trans h16⟩

theorem render_frame_layer_trace (mgr : ResourceManager) (slice : Frame.primitives_t)
    (r : Renderer) :
    (render_frame_layer mgr slice r).trace =
      r.trace ++ circles_block r.attr_.rect_vao slice.circles
        ++ rectangles_block r.attr_.rect_vao slice.rectangles
        ++ lines_block mgr r slice.lines := by
  rw [render_frame_layer_eq]
  by_cases h : slice.lines.isEmpty
  · simp [h, before_lines, lines_block]
  · simp [h, do_render_lines_trace, before_lines, lines_block, lines_calls, emit]

theorem render_frame_layer_keeps (mgr : ResourceManager) (slice : Frame.primitives_t)
    (r : Renderer) : r.keeps (render_frame_layer mgr slice r) := by
  rw [render_frame_layer_eq]
  by_cases h : slice.lines.isEmpty
  · simp [h, before_lines, Renderer.keeps]
  · have := do_render_lines_frame mgr slice.lines (emit (.use .lines) (before_lines slice r))
    simp only [h, Bool.false_eq_true, if_false, Renderer.keeps]
    simp only [emit, before_lines] at this
    obtain ⟨h1, h2, h3, h4, h5, h6, h7, h8⟩ := this
    exact ⟨h1, h2, h5, h6, h7, h8⟩

theorem render_frame_layer_grid (mgr : ResourceManager) (slice : Frame.primitives_t)
    (r : Renderer) :
    (render_frame_layer mgr slice r).attr_.grid_vao = r.attr_.grid_vao ∧
    (render_frame_layer mgr slice r).attr_.grid_vertex_count = r.attr_.grid_vertex_count := by
  rw [render_frame_layer_eq]
  by_cases h : slice.lines.isEmpty
  · simp [h, before_lines]
  · have := do_render_lines_frame mgr slice.lines (emit (.use .lines) (before_lines slice r))
    simp only [h, Bool.false_eq_true, if_false]
    simp only [emit, before_lines] at this
    exact ⟨this.2.2.1, this.2.2.2.1⟩

theorem update_frustum_keeps (cam : Camera) (r : Renderer) : r.keeps (update_frustum cam r) := by
  simp only [update_frustum, glBindBuffer, glBufferData, emit, Renderer.keeps, GLState.bound]
  split_ifs <;> simp

theorem render_background_keeps (color : Vec3) (r : Renderer) :
    r.keeps (render_background color r) := by
  simp [render_background, glBindVertexArray, glDrawArrays, emit, Renderer.keeps]

/-- The state after a `render_grid` that finds the geometry built. -/
theorem render_grid_built (mgr : ResourceManager) (color : Vec3) (r : Renderer)
    (h : r.attr_.grid_vao ≠ 0) :
    render_grid mgr color r =
      { r with gl := { r.gl with vertexArray := r.attr_.grid_vao }
               trace := r.trace ++ grid_draw_calls r color } := by
  simp [render_grid, h, emit, glBindVertexArray, glDrawArrays, grid_draw_calls]

/-- The state after a `render_grid` that builds the geometry. -/
theorem render_grid_first (mgr : ResourceManager) (color : Vec3) (r : Renderer)
    (h : r.attr_.grid_vao = 0) :
    render_grid mgr color r =
      { r with
        attr_ := { r.attr_ with
                   grid_vao := mgr.vertex_array r.vaos_made
                   grid_vertex_count := toGLsizei ((grid_floats r.grid_cells_).length / 3) }
        vaos_made := r.vaos_made + 1
        bufs_made := r.bufs_made + 1
        gl := { r.gl with
                vertexArray := mgr.vertex_array r.vaos_made
                arrayBuffer := mgr.buffer r.bufs_made
                store :=
                  if mgr.buffer r.bufs_made = 0 then r.gl.store
                  else Function.update r.gl.store (mgr.buffer r.bufs_made)
                         (.floats (grid_floats r.grid_cells_))
                attribBuffer :=
                  Function.update r.gl.attribBuffer (mgr.vertex_array r.vaos_made)
                    (Function.update (r.gl.attribBuffer (mgr.vertex_array r.vaos_made)) 0
                      (mgr.buffer r.bufs_made)) }
        trace := r.trace ++ grid_build_calls r color (mgr.vertex_array r.vaos_made)
                   (mgr.buffer r.bufs_made) } := by
  by_cases hb : mgr.buffer r.bufs_made = 0 <;>
  simp [render_grid, h, hb, emit, glBindVertexArray, glDrawArrays, grid_build_calls,
    gen_vertex_array, gen_vertex_array_handle, gen_buffer, gen_buffer_handle, glBindBuffer,
    glBufferData, glVertexAttribPointer, glEnableVertexAttribArray, GLState.bound]

theorem render_grid_keeps (mgr : ResourceManager) (color : Vec3) (r : Renderer) :
    r.keeps (render_grid mgr color r) := by
  by_cases h : r.attr_.grid_vao = 0
  · rw [render_grid_first mgr color r h]; simp [Renderer.keeps]
  · rw [render_grid_built mgr color r h]; simp [Renderer.keeps]

theorem step_keeps (mgr : ResourceManager) (op : Op) (r : Renderer) : r.keeps (op.step mgr r) := by
  cases op with
  | update_frustum cam => exact update_frustum_keeps cam r
  | render_background color => exact render_background_keeps color r
  | render_grid color => exact render_grid_keeps mgr color r
  | render_frame_layer slice => exact render_frame_layer_keeps mgr slice r

theorem run_keeps (mgr : ResourceManager) (ops : List Op) (r : Renderer) :
    r.keeps (run mgr ops r) := by
  induction ops generalizing r with
  | nil => exact Renderer.keeps_refl r
  | cons op ops ih => exact Renderer.keeps_trans (step_keeps mgr op r) (ih (op.step mgr r))

theorem foldl_append_eq_flatMap {α β : Type} (f : α → List β) (l : List α) (g : List β) :
    l.foldl (fun g i => g ++ f i) g = g ++ l.flatMap f := by
  induction l generalizing g with
  | nil => simp
  | cons a l ih => simp [ih]

theorem length_flatMap_six {α β : Type} (f : α → List β) (l : List α)
    (h : ∀ a, (f a).length = 6) : (l.flatMap f).length = 6 * l.length := by
  induction l with
  | nil => simp
  | cons a l ih => simp [ih, h]; omega

theorem grid_loop_x_eq (step : F32) (cells : Nat) (grid : List F32) :
    grid_loop_x step cells grid = grid ++ (List.range (cells + 1)).flatMap (vertical_line step) := by
  have := foldl_append_eq_flatMap (vertical_line step) (List.range (cells + 1)) grid
  simpa [grid_loop_x, vertical_line] using this

theorem grid_loop_y_eq (step : F32) (cells : Nat) (grid : List F32) :
    grid_loop_y step cells grid =
      grid ++ (List.range (cells + 1)).flatMap (horizontal_line step) := by
  have := foldl_append_eq_flatMap (horizontal_line step) (List.range (cells + 1)) grid
  simpa [grid_loop_y, horizontal_line] using this

theorem grid_floats_eq (cells : U16 × U16) :
    grid_floats cells =
      (List.range (cells.1.val + 1)).flatMap (vertical_line (1 / F32.ofNat cells.1.val))
        ++ (List.range (cells.2.val + 1)).flatMap
             (horizontal_line (1 / F32.ofNat cells.2.val)) := by
  simp [grid_floats, grid_loop_x_eq, grid_loop_y_eq]

theorem grid_floats_length (cells : U16 × U16) :
    (grid_floats cells).length = 3 * (2 * ((cells.1.val + 1) + (cells.2.val + 1))) := by
  rw [grid_floats_eq, List.length_append,
    length_flatMap_six (vertical_line _) _ (fun _ => rfl),
    length_flatMap_six (horizontal_line _) _ (fun _ => rfl)]
  simp only [List.length_range]
  omega

theorem toGLsizei_of_lt (n : Nat) (h : n < 2 ^ 31) : toGLsizei n = (n : Int) := by
  have h2 : n % 2 ^ 32 = n := Nat.mod_eq_of_lt (by omega)
  unfold toGLsizei
  rw [h2, if_pos h]

theorem grid_count (cells : U16 × U16) :
    toGLsizei ((grid_floats cells).length / 3)
      = 2 * (((cells.1.val : Int) + 1) + ((cells.2.val : Int) + 1)) := by
  have h1 := cells.1.isLt
  have h2 := cells.2.isLt
  rw [grid_floats_length, Nat.mul_div_cancel_left _ (by norm_num), toGLsizei_of_lt _ (by omega)]
  push_cast
  ring

theorem new_attr (mgr : ResourceManager) (area : U32 × U32) (cells : U16 × U16) :
    (Renderer.new mgr area cells).attr_ =
      { grid_vao := 0, grid_vertex_count := 0, rect_vao := mgr.vertex_array 0, lines_vao := 0,
        uniform_buf := mgr.buffer 1,
        grid_model := Mat4.scale Mat4.identity ⟨F32.ofNat area.1, F32.ofNat area.2, 1⟩ } := by
  simp [Renderer.new, emit, gen_vertex_array, gen_vertex_array_handle, gen_buffer,
    gen_buffer_handle, glBindVertexArray, glBindBuffer, glBufferData, glVertexAttribPointer,
    glEnableVertexAttribArray, glBindBufferBase]

theorem new_area (mgr : ResourceManager) (area : U32 × U32) (cells : U16 × U16) :
    (Renderer.new mgr area cells).area_size_ = ⟨F32.ofNat area.1, F32.ofNat area.2⟩ ∧
    (Renderer.new mgr area cells).grid_cells_ = cells := by
  simp [Renderer.new, emit, gen_vertex_array, gen_vertex_array_handle, gen_buffer,
    gen_buffer_handle, glBindVertexArray, glBindBuffer, glBufferData, glVertexAttribPointer,
    glEnableVertexAttribArray, glBindBufferBase]

theorem new_uniformSlot (mgr : ResourceManager) (area : U32 × U32) (cells : U16 × U16) :
    (Renderer.new mgr area cells).gl.uniformSlot 0 = mgr.buffer 1 := by
  simp [Renderer.new, emit, gen_vertex_array, gen_vertex_array_handle, gen_buffer,
    gen_buffer_handle, glBindVertexArray, glBindBuffer, glBufferData, glVertexAttribPointer,
    glEnableVertexAttribArray, glBindBufferBase]

theorem quad_corners_eq :
    quad_corners =
      [⟨F32.fin (-1), F32.fin (-1), F32.fin 0⟩, ⟨F32.fin 1, F32.fin (-1), F32.fin 0⟩,
       ⟨F32.fin (-1), F32.fin 1, F32.fin 0⟩, ⟨F32.fin 1, F32.fin 1, F32.fin 0⟩] := by
  simp [quad_corners, points, attrib_positions, F32.zero_eq, F32.one_eq]

theorem map_quad_corners (M : Mat4) (ax bx ay b_y z : ℚ)
    (h : ∀ sx sy : ℚ, M.apply ⟨F32.fin sx, F32.fin sy, F32.fin 0⟩
      = ⟨F32.fin (ax + sx * bx), F32.fin (ay + sy * b_y), F32.fin z⟩) :
    quad_corners.map M.apply =
      [⟨F32.fin (ax - bx), F32.fin (ay - b_y), F32.fin z⟩,
       ⟨F32.fin (ax + bx), F32.fin (ay - b_y), F32.fin z⟩,
       ⟨F32.fin (ax - bx), F32.fin (ay + b_y), F32.fin z⟩,
       ⟨F32.fin (ax + bx), F32.fin (ay + b_y), F32.fin z⟩] := by
  rw [quad_corners_eq]
  simp only [List.map_cons, List.map_nil, h]
  norm_num
  refine ⟨⟨?_, ?_⟩, ?_, ?_⟩ <;> ring

/-- The state after `update_frustum`. -/
theorem update_frustum_eq (cam : Camera) (r : Renderer) :
    update_frustum cam r =
      { r with
        gl := { r.gl with
                uniformBuffer := 0
                store :=
                  if r.attr_.uniform_buf = 0 then r.gl.store
                  else Function.update r.gl.store r.attr_.uniform_buf
                         (.floats cam.proj_view.toList) }
        trace := r.trace ++
          [.glBindBuffer .uniform r.attr_.uniform_buf,
           .glBufferData .uniform (.floats cam.proj_view.toList) .dynamicDraw,
           .glBindBuffer .uniform 0] } := by
  by_cases h : r.attr_.uniform_buf = 0 <;>
    simp [update_frustum, glBindBuffer, glBufferData, emit, GLState.bound, h]

theorem events_append (a b : List Cmd) : events (a ++ b) = events a ++ events b := by
  simp [events]

theorem events_circle_calls (v : Nat) (cs : List pod.Circle) :
    events (cs.flatMap (circle_calls v)) = cs.map (fun _ => Event.draw .triangleStrip 4) := by
  induction cs with
  | nil => rfl
  | cons c cs ih =>
    rw [List.flatMap_cons, events_append, ih]
    rfl

theorem events_rectangle_calls (v : Nat) (rs : List pod.Rectangle) :
    events (rs.flatMap (rectangle_calls v)) = rs.map (fun _ => Event.draw .triangleStrip 4) := by
  induction rs with
  | nil => rfl
  | cons c cs ih =>
    rw [List.flatMap_cons, events_append, ih]
    rfl

theorem events_lines_calls (mgr : ResourceManager) (r : Renderer) (ls : List pod.Line) :
    events (lines_calls mgr r ls) = [Event.draw .lines (toGLsizei (ls.length * 2))] := by
  unfold lines_calls
  split_ifs <;> rfl

theorem countP_circle_calls (v : Nat) (cs : List pod.Circle) :
    (cs.flatMap (circle_calls v)).countP Cmd.isDraw = cs.length := by
  induction cs with
  | nil => rfl
  | cons c cs ih =>
    rw [List.flatMap_cons, List.countP_append, ih]
    simp [circle_calls, Cmd.isDraw, List.countP_cons]
    omega

theorem countP_rectangle_calls (v : Nat) (rs : List pod.Rectangle) :
    (rs.flatMap (rectangle_calls v)).countP Cmd.isDraw = rs.length := by
  induction rs with
  | nil => rfl
  | cons c cs ih =>
    rw [List.flatMap_cons, List.countP_append, ih]
    simp [rectangle_calls, Cmd.isDraw, List.countP_cons]
    omega

theorem countP_lines_calls (mgr : ResourceManager) (r : Renderer) (ls : List pod.Line) :
    (lines_calls mgr r ls).countP Cmd.isDraw = 1 := by
  unfold lines_calls
  split_ifs <;> rfl

theorem step_grid_of_not_isGrid (mgr : ResourceManager) (op : Op) (r : Renderer)
    (h : op.isGrid = false) :
    (op.step mgr r).attr_.grid_vao = r.attr_.grid_vao ∧
    (op.step mgr r).attr_.grid_vertex_count = r.attr_.grid_vertex_count := by
  cases op with
  | update_frustum cam => simp [Op.step, update_frustum_eq]
  | render_background color =>
    simp [Op.step, render_background, glBindVertexArray, glDrawArrays, emit]
  | render_grid color => simp [Op.isGrid] at h
  | render_frame_layer slice => exact render_frame_layer_grid mgr slice r

theorem step_grid_of_built (mgr : ResourceManager) (op : Op) (r : Renderer)
    (h : r.attr_.grid_vao ≠ 0) :
    (op.step mgr r).attr_.grid_vao = r.attr_.grid_vao ∧
    (op.step mgr r).attr_.grid_vertex_count = r.attr_.grid_vertex_count := by
  cases op with
  | render_grid color => simp [Op.step, render_grid_built mgr color r h]
  | update_frustum cam => exact step_grid_of_not_isGrid mgr _ r rfl
  | render_background color => exact step_grid_of_not_isGrid mgr _ r rfl
  | render_frame_layer slice => exact step_grid_of_not_isGrid mgr _ r rfl

theorem run_grid_of_not_isGrid (mgr : ResourceManager) (ops : List Op) (r : Renderer)
    (h : ∀ op ∈ ops, op.isGrid = false) :
    (run mgr ops r).attr_.grid_vao = r.attr_.grid_vao ∧
    (run mgr ops r).attr_.grid_vertex_count = r.attr_.grid_vertex_count := by
  induction ops generalizing r with
  | nil => exact ⟨rfl, rfl⟩
  | cons op ops ih =>
    have h1 := step_grid_of_not_isGrid mgr op r (h op (List.mem_cons_self _ _))
    have h2 := ih (op.step mgr r) (fun o ho => h o (List.mem_cons_of_mem _ ho))
    exact ⟨h2.1.trans h1.1, h2.2.trans h1.2⟩

theorem run_grid_of_built (mgr : ResourceManager) (ops : List Op) (r : Renderer)
    (h : r.attr_.grid_vao ≠ 0) :
    (run mgr ops r).attr_.grid_vao = r.attr_.grid_vao ∧
    (run mgr ops r).attr_.grid_vertex_count = r.attr_.grid_vertex_count := by
  induction ops generalizing r with
  | nil => exact ⟨rfl, rfl⟩
  | cons op ops ih =>
    have h1 := step_grid_of_built mgr op r h
    have h2 := ih (op.step mgr r) (by rw [h1.1]; exact h)
    exact ⟨h2.1.trans h1.1, h2.2.trans h1.2⟩

theorem render_grid_vao_ne_zero (mgr : ResourceManager) (hv : ∀ k, mgr.vertex_array k ≠ 0)
    (color : Vec3) (r : Renderer) : (render_grid mgr color r).attr_.grid_vao ≠ 0 := by
  by_cases h : r.attr_.grid_vao = 0
  · rw [render_grid_first mgr color r h]; exact hv _
  · rw [render_grid_built mgr color r h]; exact h

/-- The state after a `do_render_lines` that finds the vertex layout built. -/
theorem do_render_lines_built (mgr : ResourceManager) (ls : List pod.Line) (r : Renderer)
    (h : r.attr_.lines_vao ≠ 0) :
    do_render_lines mgr ls r =
      { r with
        gl := { r.gl with
                vertexArray := r.attr_.lines_vao
                store :=
                  if r.gl.arrayBuffer = 0 then r.gl.store
                  else Function.update r.gl.store r.gl.arrayBuffer (.lines ls) }
        trace := r.trace ++ lines_draw_calls r.attr_.lines_vao ls } := by
  by_cases hb : r.gl.arrayBuffer = 0 <;>
  simp [do_render_lines, h, hb, emit, glBindVertexArray, glDrawArrays, glBufferData,
    GLState.bound, lines_draw_calls]

/-- The state after a `do_render_lines` that builds the vertex layout. -/
theorem do_render_lines_first (mgr : ResourceManager) (ls : List pod.Line) (r : Renderer)
    (h : r.attr_.lines_vao = 0) :
    do_render_lines mgr ls r =
      { r with
        attr_ := { r.attr_ with lines_vao := mgr.vertex_array r.vaos_made }
        vaos_made := r.vaos_made + 1
        bufs_made := r.bufs_made + 1
        gl := { r.gl with
                vertexArray := mgr.vertex_array r.vaos_made
                arrayBuffer := mgr.buffer r.bufs_made
                store :=
                  if mgr.buffer r.bufs_made = 0 then r.gl.store
                  else Function.update r.gl.store (mgr.buffer r.bufs_made) (.lines ls)
                attribBuffer :=
                  Function.update r.gl.attribBuffer (mgr.vertex_array r.vaos_made)
                    (Function.update
                      (Function.update (r.gl.attribBuffer (mgr.vertex_array r.vaos_made)) 0
                        (mgr.buffer r.bufs_made))
                      1 (mgr.buffer r.bufs_made)) }
        trace := r.trace ++ lines_setup_calls (mgr.vertex_array r.vaos_made)
                   (mgr.buffer r.bufs_made)
                   ++ lines_draw_calls (mgr.vertex_array r.vaos_made) ls } := by
  by_cases hb : mgr.buffer r.bufs_made = 0 <;>
  simp [do_render_lines, h, hb, emit, glBindVertexArray, glDrawArrays, glBufferData,
    GLState.bound, lines_draw_calls, lines_setup_calls, gen_vertex_array,
    gen_vertex_array_handle, gen_buffer, gen_buffer_handle, glBindBuffer,
    glVertexAttribPointer, glEnableVertexAttribArray]

theorem many_lines_length : many_lines.length = 1073741824 := List.length_replicate _ _

theorem new_arrayBuffer (mgr : ResourceManager) (area : U32 × U32) (cells : U16 × U16) :
    (Renderer.new mgr area cells).gl.arrayBuffer = mgr.buffer 0 := by
  simp only [Renderer.new, emit, gen_vertex_array, gen_vertex_array_handle, gen_buffer,
    gen_buffer_handle, glBindVertexArray, glBindBuffer, glBufferData, glVertexAttribPointer,
    glEnableVertexAttribArray, glBindBufferBase, GLState.bound]
  split_ifs <;> rfl

theorem step_arrayBuffer_ne_zero (mgr : ResourceManager) (hb : ∀ k, mgr.buffer k ≠ 0) (op : Op)
    (r : Renderer) (h : r.gl.arrayBuffer ≠ 0) : (op.step mgr r).gl.arrayBuffer ≠ 0 := by
  cases op with
  | update_frustum cam => simpa [Op.step, update_frustum_eq] using h
  | render_background color =>
    simpa [Op.step, render_background, glBindVertexArray, glDrawArrays, emit] using h
  | render_grid color =>
    by_cases hg : r.attr_.grid_vao = 0
    · simpa [Op.step, render_grid_first mgr color r hg] using hb _
    · simpa [Op.step, render_grid_built mgr color r hg] using h
  | render_frame_layer slice =>
    simp only [Op.step, render_frame_layer_eq]
    by_cases hl : slice.lines.isEmpty
    · simpa [hl, before_lines] using h
    · simp only [hl, Bool.false_eq_true, if_false]
      by_cases hv : (emit (.use .lines) (before_lines slice r)).attr_.lines_vao = 0
      · rw [do_render_lines_first mgr _ _ hv]; exact hb _
      · rw [do_render_lines_built mgr _ _ hv]; simpa [emit, before_lines] using h

/-- On a renderer constructed with non-zero buffer handles some buffer is bound to
`GL_ARRAY_BUFFER` at all times. -/
theorem run_arrayBuffer_ne_zero (mgr : ResourceManager) (hb : ∀ k, mgr.buffer k ≠ 0)
    (area : U32 × U32) (cells : U16 × U16) (ops : List Op) :
    (run mgr ops (Renderer.new mgr area cells)).gl.arrayBuffer ≠ 0 := by
  have key : ∀ (ops : List Op) (r : Renderer), r.gl.arrayBuffer ≠ 0 →
      (run mgr ops r).gl.arrayBuffer ≠ 0 := by
    intro ops
    induction ops with
    | nil => intro r h; exact h
    | cons op ops ih => intro r h; exact ih _ (step_arrayBuffer_ne_zero mgr hb op r h)
  exact key ops _ (by rw [new_arrayBuffer]; exact hb 0)

/-- The state after `update_frustum`: the store read back is the matrix. -/
theorem readMat4_toList (m : Mat4) : (BufData.floats m.toList).readMat4 = some m := rfl

theorem F32.ofNat_of_le (n : ℕ) (h : n ≤ 2 ^ 24) : F32.ofNat n = F32.fin n :=
  F32.round_natCast_of_le n h

theorem F32.ofNat_finite (n : U32) : F32.ofNat n.val = F32.fin (F32.ofNat n.val).toRat := by
  obtain ⟨A, hA⟩ := F32.round_natCast_finite n.val n.isLt
  rw [F32.ofNat, hA]; rfl

/-- The calls of `render_background`. -/
theorem render_background_trace (color : Vec3) (r : Renderer) :
    (render_background color r).trace =
      r.trace ++
        [.use .color,
         .set_mat4 .color .model
           (Mat4.translate
             (Mat4.scale Mat4.identity
               ⟨F32.emul r.area_size_.x (F32.fin (1 / 2)),
                F32.emul r.area_size_.y (F32.fin (1 / 2)), 1⟩)
             ⟨1, 1, F32.round (-1 / 5)⟩),
         .set_vec4 .color .color ⟨color.x, color.y, color.z, 1⟩,
         .glBindVertexArray r.attr_.rect_vao,
         .glDrawArrays .triangleStrip 0 4] := by
  simp [render_background, emit, glBindVertexArray, glDrawArrays]

theorem background_model_apply (ax ay z x y : ℚ) :
    (Mat4.translate (Mat4.scale Mat4.identity ⟨F32.fin (ax / 2), F32.fin (ay / 2), F32.fin 1⟩)
        ⟨F32.fin 1, F32.fin 1, F32.fin z⟩).apply ⟨F32.fin x, F32.fin y, F32.fin 0⟩
      = ⟨F32.fin (ax / 2 * (x + 1)), F32.fin (ay / 2 * (y + 1)), F32.fin z⟩ := by
  simp only [Mat4.apply, Mat4.mulVec, Mat4.scale, Mat4.translate, Mat4.identity, Vec4.smul,
    Vec4.add, F32.zero_eq, F32.one_eq, F32.emul_fin, F32.eadd_fin]
  simp only [Vec3.mk.injEq, F32.fin.injEq]
  refine ⟨by ring, by ring, by ring⟩

/-- The calls of `render_background` on a constructed renderer, with the stored area
size made explicit. -/
theorem render_background_trace_new (mgr : ResourceManager) (area : U32 × U32)
    (cells : U16 × U16) (ops : List Op) (color : Vec3) :
    (render_background color (run mgr ops (Renderer.new mgr area cells))).trace
      = (run mgr ops (Renderer.new mgr area cells)).trace ++
          [.use .color,
           .set_mat4 .color .model
             (Mat4.translate
               (Mat4.scale Mat4.identity
                 ⟨F32.fin ((F32.ofNat area.1.val).toRat / 2),
                  F32.fin ((F32.ofNat area.2.val).toRat / 2), F32.fin 1⟩)
               ⟨F32.fin 1, F32.fin 1, F32.fin (-13421773 / 67108864)⟩),
           .set_vec4 .color .color ⟨color.x, color.y, color.z, F32.fin 1⟩,
           .glBindVertexArray (run mgr ops (Renderer.new mgr area cells)).attr_.rect_vao,
           .glDrawArrays .triangleStrip 0 4] := by
  have hk := (run_keeps mgr ops (Renderer.new mgr area cells)).1
  rw [render_background_trace, hk, (new_area mgr area cells).1]
  simp only [F32.round_neg_fifth]
  rw [F32.ofNat_finite area.1, F32.ofNat_finite area.2]
  simp only [F32.emul_fin, F32.one_eq, mul_one_div, F32.toRat]


theorem do_render_lines_lines_safe (mgr : ResourceManager) (hb : ∀ k, mgr.buffer k ≠ 0)
    (ls : List pod.Line) (r : Renderer) (h : lines_safe r) :
    lines_safe (do_render_lines mgr ls r) := by
  by_cases h0 : r.attr_.lines_vao = 0
  · rw [do_render_lines_first mgr ls r h0]
    right
    simp [hb]
  · obtain ⟨ha0, ha1, ha2⟩ := h.resolve_left h0
    rw [do_render_lines_built mgr ls r h0]
    right
    exact ⟨ha0, ha1, ha2⟩

/-- Every public operation keeps `lines_safe`, except a `render_grid` that builds the
grid geometry when the line layout already exists. -/
theorem step_lines_safe (mgr : ResourceManager) (hb : ∀ k, mgr.buffer k ≠ 0) (op : Op) (r : Renderer) (h : lines_safe r)
    (hop : op.isGrid = false ∨ r.attr_.grid_vao ≠ 0 ∨ r.attr_.lines_vao = 0) :
    lines_safe (op.step mgr r) := by
  cases op with
  | update_frustum cam =>
    simpa [Op.step, update_frustum_eq, lines_safe] using h
  | render_background color =>
    simpa [Op.step, render_background, glBindVertexArray, glDrawArrays, emit, lines_safe] using h
  | render_grid color =>
    by_cases hg : r.attr_.grid_vao = 0
    · have h0 : r.attr_.lines_vao = 0 := by
        rcases hop with hop | hop | hop
        · simp [Op.isGrid] at hop
        · exact absurd hg hop
        · exact hop
      left
      simp [Op.step, render_grid_first mgr color r hg, h0]
    · simpa [Op.step, render_grid_built mgr color r hg, lines_safe] using h
  | render_frame_layer slice =>
    simp only [Op.step, render_frame_layer_eq]
    have hbl : lines_safe (before_lines slice r) := by
      simpa [before_lines, lines_safe] using h
    by_cases hl : slice.lines.isEmpty
    · simpa [hl] using hbl
    · simp only [hl, Bool.false_eq_true, if_false]
      apply do_render_lines_lines_safe mgr hb
      simpa [emit, lines_safe] using hbl

theorem new_lines_safe (mgr : ResourceManager) (area : U32 × U32) (cells : U16 × U16) :
    lines_safe (Renderer.new mgr area cells) :=
  Or.inl (by rw [new_attr])

/-- Without any `render_grid` every state of a constructed renderer is `lines_safe`. -/
theorem run_lines_safe_of_no_grid (mgr : ResourceManager) (hb : ∀ k, mgr.buffer k ≠ 0)
    (ops : List Op) (r : Renderer) (h : lines_safe r)
    (hops : ∀ op ∈ ops, op.isGrid = false) : lines_safe (run mgr ops r) := by
  induction ops generalizing r with
  | nil => exact h
  | cons op ops ih =>
    exact ih (op.step mgr r)
      (step_lines_safe mgr hb op r h (Or.inl (hops op (List.mem_cons_self _ _))))
      (fun o ho => hops o (List.mem_cons_of_mem _ ho))

/-- Once the grid geometry is built, every later state is `lines_safe` if the
current one is. -/
theorem run_lines_safe_of_grid_built (mgr : ResourceManager) (hb : ∀ k, mgr.buffer k ≠ 0)
    (ops : List Op) (r : Renderer) (h : lines_safe r)
    (hg : r.attr_.grid_vao ≠ 0) : lines_safe (run mgr ops r) := by
  induction ops generalizing r with
  | nil => exact h
  | cons op ops ih =>
    exact ih (op.step mgr r) (step_lines_safe mgr hb op r h (Or.inr (Or.inl hg)))
      (by rw [(step_grid_of_built mgr op r hg).1]; exact hg)

/-- In the order of C7 the state after the first `render_grid` is not `lines_safe`. -/
theorem after_first_grid_not_lines_safe : ¬ lines_safe after_first_grid := by
  simp [lines_safe, after_first_grid, after_first_lines, render_frame_layer, render_grid,
    do_render_lines, r0, mgr0, Renderer.new, emit,
    gen_vertex_array, gen_vertex_array_handle, gen_buffer, gen_buffer_handle,
    glBindVertexArray, glBindBuffer, glBufferData, glVertexAttribPointer,
    glEnableVertexAttribArray, glDrawArrays, glBindBufferBase, GLState.bound, GLState.fresh,
    Function.update]

/-! ## The claims -/

/-- Claim C1: the first call of `render_grid` (the one that finds `grid_vao = 0`), for
any pair of unsigned 16-bit cell counts, leaves
`grid_vertex_count = 2 * ((cells_x + 1) + (cells_y + 1))`; the float list it
uploads holds three floats per vertex, it is the `cells_x + 1` vertical lines
followed by the `cells_y + 1` horizontal lines, two vertices each, and the call
sequence of that first call is the build sequence that uploads this list. -/
theorem render_grid_vertex_count (mgr : ResourceManager) (color : Vec3) (r : Renderer)
    (h : r.attr_.grid_vao = 0) :
    (render_grid mgr color r).attr_.grid_vertex_count
      = 2 * (((r.grid_cells_.1.val : Int) + 1) + ((r.grid_cells_.2.val : Int) + 1)) ∧
    (grid_floats r.grid_cells_).length
      = 3 * (2 * ((r.grid_cells_.1.val + 1) + (r.grid_cells_.2.val + 1))) ∧
    grid_floats r.grid_cells_
      = (List.range (r.grid_cells_.1.val + 1)).flatMap
            (vertical_line (1 / F32.ofNat r.grid_cells_.1.val))
          ++ (List.range (r.grid_cells_.2.val + 1)).flatMap
            (horizontal_line (1 / F32.ofNat r.grid_cells_.2.val)) ∧
    (∀ step i, (vertical_line step i).length = 3 * 2 ∧ (horizontal_line step i).length = 3 * 2) ∧
    (render_grid mgr color r).trace
      = r.trace ++ grid_build_calls r color (mgr.vertex_array r.vaos_made)
          (mgr.buffer r.bufs_made) := by
  refine ⟨?_, grid_floats_length _, grid_floats_eq _, fun _ _ => ⟨rfl, rfl⟩, ?_⟩
  · rw [render_grid_first mgr color r h]
    exact grid_count r.grid_cells_
  · rw [render_grid_first mgr color r h]

theorem render_grid_vertex_count_witness :
    r0.attr_.grid_vao = 0 ∧
    (render_grid mgr0 ⟨1, 1, 1⟩ r0).attr_.grid_vertex_count
      = 2 * (((r0.grid_cells_.1.val : Int) + 1) + ((r0.grid_cells_.2.val : Int) + 1)) :=
  ⟨by simp [r0, new_attr], (render_grid_vertex_count mgr0 ⟨1, 1, 1⟩ r0 (by simp [r0, new_attr])).1⟩

/-- Claim C2: for a circle with center `(cx, cy)` and radius `rad` (finite values),
`do_render_circle` sets `radius2` to the float product `rad * rad` (the exact
square rounded to binary32), `center = (cx, cy, 0)`, the color, and a model
matrix `M`, then draws the unit quad as a 4-vertex triangle strip; `M` maps
every point `(sx, sy, 0)` to `(cx + sx * rad, cy + sy * rad, 0)`, in particular
the four corners of the unit quad stored by the constructor (`sx, sy = ±1`) to
the corners of the square centered at the center of the circle with
half-extent `rad`. -/
theorem do_render_circle_quad (cx cy rad : ℚ) (color : Vec4) (r : Renderer) :
    ∃ M : Mat4,
      (do_render_circle ⟨⟨F32.fin cx, F32.fin cy⟩, F32.fin rad, color⟩ r).trace
        = r.trace ++
          [.set_float .circle .radius2 (F32.fin rad * F32.fin rad),
           .set_vec3 .circle .center ⟨F32.fin cx, F32.fin cy, F32.fin 0⟩,
           .set_vec4 .circle .color color,
           .set_mat4 .circle .model M,
           .glBindVertexArray r.attr_.rect_vao,
           .glDrawArrays .triangleStrip 0 4] ∧
      F32.fin rad * F32.fin rad = F32.round (rad * rad) ∧
      (∀ sx sy : ℚ, M.apply ⟨F32.fin sx, F32.fin sy, F32.fin 0⟩
        = ⟨F32.fin (cx + sx * rad), F32.fin (cy + sy * rad), F32.fin 0⟩) ∧
      quad_corners.map M.apply =
        [⟨F32.fin (cx - rad), F32.fin (cy - rad), F32.fin 0⟩,
         ⟨F32.fin (cx + rad), F32.fin (cy - rad), F32.fin 0⟩,
         ⟨F32.fin (cx - rad), F32.fin (cy + rad), F32.fin 0⟩,
         ⟨F32.fin (cx + rad), F32.fin (cy + rad), F32.fin 0⟩] := by
  have hM : ∀ sx sy : ℚ,
      (Mat4.scale (Mat4.translate Mat4.identity ⟨F32.fin cx, F32.fin cy, 0⟩)
          ⟨F32.fin rad, F32.fin rad, 1⟩).apply ⟨F32.fin sx, F32.fin sy, F32.fin 0⟩
        = ⟨F32.fin (cx + sx * rad), F32.fin (cy + sy * rad), F32.fin 0⟩ := by
    intro x y
    simp only [Mat4.apply, Mat4.mulVec, Mat4.scale, Mat4.translate, Mat4.identity, Vec4.smul,
      Vec4.add, F32.zero_eq, F32.one_eq, F32.emul_fin, F32.eadd_fin]
    simp only [Vec3.mk.injEq, F32.fin.injEq]
    refine ⟨by ring, by ring, by ring⟩
  refine ⟨_, ?_, rfl, hM, map_quad_corners _ cx rad cy rad 0 hM⟩
  simp only [do_render_circle, emit, glBindVertexArray, glDrawArrays, List.append_assoc,
    List.singleton_append, F32.zero_eq]
  rfl

/-- Claim C4 fails as stated: for a list of `2 ^ 30` segments the count passed to
`glDrawArrays` is `static_cast<GLsizei>(2 ^ 31) = -2147483648`, not `2 * 2 ^ 30`.
And in the order lines `[l1, l2]`, first `render_grid`, lines `[l3]`, the
buffer the line layout reads still holds `[l1, l2]` after the second line draw
(the defect of C7). -/
theorem do_render_lines_count_counterexample :
    many_lines.length = 2 ^ 30 ∧
    (do_render_lines mgr0 many_lines r0).trace.getLast?
      = some (.glDrawArrays .lines 0 (-2147483648)) ∧
    (-2147483648 : Int) ≠ 2 * (many_lines.length : Int) ∧
    after_second_lines.gl.store (line_buffer after_second_lines) = .lines [l1, l2] := by
  have hc : toGLsizei (many_lines.length * 2) = -2147483648 := by
    rw [many_lines_length]; decide
  refine ⟨by rw [many_lines_length]; norm_num, ?_, by rw [many_lines_length]; norm_num, ?_⟩
  · rw [do_render_lines_trace]
    unfold lines_calls lines_draw_calls
    rw [hc]
    split_ifs <;> simp
  · simp [line_buffer, after_second_lines, after_first_grid, after_first_lines,
      render_frame_layer, render_grid, do_render_lines, r0, mgr0, Renderer.new, emit,
      gen_vertex_array, gen_vertex_array_handle, gen_buffer, gen_buffer_handle,
      glBindVertexArray, glBindBuffer, glBufferData, glVertexAttribPointer,
      glEnableVertexAttribArray, glDrawArrays, glBindBufferBase, GLState.bound, GLState.fresh,
      Function.update]

/-- Claim C4, amended: for lists of fewer than `2 ^ 30` segments `do_render_lines` makes
exactly one upload, of the whole list (48 bytes per segment), and one
line-list draw from 0 of `2 * N` vertices.  With non-zero handles, in a state
where the line layout does not exist yet or still reads the bound array
buffer, a call followed by a second call leaves the buffer the line layout
reads (on a first line draw: the buffer that call created) holding exactly the
second list, `2 * N2` vertices; the second call adds only bind, upload and a
draw of `2 * N2` vertices, and no other buffer is written. -/
theorem do_render_lines_replaces_store (mgr : ResourceManager)
    (hv : ∀ k, mgr.vertex_array k ≠ 0) (hb : ∀ k, mgr.buffer k ≠ 0) (r : Renderer)
    (hsafe : lines_safe r) (lines1 lines2 : List pod.Line)
    (h1 : lines1.length < 2 ^ 30) (h2 : lines2.length < 2 ^ 30) :
    let r1 := do_render_lines mgr lines1 r
    let r2 := do_render_lines mgr lines2 r1
    (∃ setup,
      r1.trace = r.trace ++ setup ++
        [.glBindVertexArray r1.attr_.lines_vao,
         .glBufferData .array (.lines lines1) .dynamicDraw,
         .glDrawArrays .lines 0 (2 * (lines1.length : Int))] ∧
      setup.countP Cmd.isUpload = 0 ∧ setup.countP Cmd.isDraw = 0) ∧
    r2.trace = r1.trace ++
        [.glBindVertexArray r1.attr_.lines_vao,
         .glBufferData .array (.lines lines2) .dynamicDraw,
         .glDrawArrays .lines 0 (2 * (lines2.length : Int))] ∧
    (r.attr_.lines_vao = 0 →
      r1.attr_.lines_vao = mgr.vertex_array r.vaos_made ∧
      line_buffer r1 = mgr.buffer r.bufs_made) ∧
    (r.attr_.lines_vao ≠ 0 →
      r1.attr_.lines_vao = r.attr_.lines_vao ∧ line_buffer r1 = line_buffer r) ∧
    line_buffer r1 ≠ 0 ∧
    r1.gl.attribBuffer r1.attr_.lines_vao 1 = line_buffer r1 ∧
    r2.attr_.lines_vao = r1.attr_.lines_vao ∧
    r2.gl.attribBuffer = r1.gl.attribBuffer ∧
    r1.gl.store (line_buffer r1) = .lines lines1 ∧
    (r1.gl.store (line_buffer r1)).bytes = 48 * lines1.length ∧
    r2.gl.store (line_buffer r2) = .lines lines2 ∧
    (r2.gl.store (line_buffer r2)).lineVertices = 2 * lines2.length ∧
    (∀ b, b ≠ line_buffer r1 → r1.gl.store b = r.gl.store b ∧ r2.gl.store b = r.gl.store b) ∧
    lines_safe r2 := by
  intro r1 r2
  have hc1 : toGLsizei (lines1.length * 2) = 2 * (lines1.length : Int) := by
    rw [toGLsizei_of_lt _ (by omega)]; push_cast; ring
  have hc2 : toGLsizei (lines2.length * 2) = 2 * (lines2.length : Int) := by
    rw [toGLsizei_of_lt _ (by omega)]; push_cast; ring
  by_cases h : r.attr_.lines_vao = 0
  · have hr1 : r1 = _ := do_render_lines_first mgr lines1 r h
    have hvao : r1.attr_.lines_vao ≠ 0 := by rw [hr1]; exact hv _
    have hr2 : r2 = _ := do_render_lines_built mgr lines2 r1 hvao
    have hbb := hb r.bufs_made
    have e1 : r1.attr_.lines_vao = mgr.vertex_array r.vaos_made := by rw [hr1]
    have e2 : r1.gl.arrayBuffer = mgr.buffer r.bufs_made := by rw [hr1]
    have e3 : line_buffer r1 = mgr.buffer r.bufs_made := by
      rw [line_buffer, hr1]; simp
    have e4 : r1.gl.attribBuffer r1.attr_.lines_vao 1 = mgr.buffer r.bufs_made := by
      rw [hr1]; simp
    have e5 : r1.gl.store = Function.update r.gl.store (mgr.buffer r.bufs_made) (.lines lines1) := by
      rw [hr1]; simp [hbb]
    have f1 : r2.attr_.lines_vao = r1.attr_.lines_vao := by rw [hr2]
    have f2 : r2.gl.attribBuffer = r1.gl.attribBuffer := by rw [hr2]
    have f3 : r2.gl.store = Function.update r1.gl.store (mgr.buffer r.bufs_made) (.lines lines2) := by
      rw [hr2]; simp [e2, hbb]
    have f4 : r2.gl.arrayBuffer = mgr.buffer r.bufs_made := by rw [hr2]; exact e2
    have f5 : line_buffer r2 = mgr.buffer r.bufs_made := by
      rw [line_buffer, f1, f2]; exact e3
    refine ⟨⟨lines_setup_calls (mgr.vertex_array r.vaos_made) (mgr.buffer r.bufs_made), ?_,
      rfl, rfl⟩, ?_, fun _ => ⟨e1, e3⟩, fun hne => absurd h hne, ?_, ?_, f1, f2, ?_, ?_, ?_, ?_,
      ?_, ?_⟩
    · rw [hr1]; simp [lines_draw_calls, hc1]
    · rw [hr2]; simp [lines_draw_calls, hc2]
    · rw [e3]; exact hbb
    · rw [e4, e3]
    · rw [e3, e5]; simp
    · rw [e3, e5]; simp [BufData.bytes]
    · rw [f5, f3]; simp
    · rw [f5, f3]; simp [BufData.lineVertices]
    · intro b hne
      rw [e3] at hne
      rw [f3, e5]
      simp [Function.update_noteq hne]
    · right
      refine ⟨by rw [f4]; exact hbb, ?_, ?_⟩
      · rw [f4]; exact f5
      · rw [f1, f2, e4, f4]
  · have hr1 : r1 = _ := do_render_lines_built mgr lines1 r h
    obtain ⟨ha0, ha1, ha2⟩ := hsafe.resolve_left h
    have e1 : r1.attr_.lines_vao = r.attr_.lines_vao := by rw [hr1]
    have hvao : r1.attr_.lines_vao ≠ 0 := by rw [e1]; exact h
    have hr2 : r2 = _ := do_render_lines_built mgr lines2 r1 hvao
    have e2 : r1.gl.arrayBuffer = r.gl.arrayBuffer := by rw [hr1]
    have e2' : r1.gl.attribBuffer = r.gl.attribBuffer := by rw [hr1]
    have e3 : line_buffer r1 = r.gl.arrayBuffer := by
      rw [line_buffer, e1, e2']; exact ha1
    have e5 : r1.gl.store = Function.update r.gl.store r.gl.arrayBuffer (.lines lines1) := by
      rw [hr1]; simp [ha0]
    have f1 : r2.attr_.lines_vao = r1.attr_.lines_vao := by rw [hr2]
    have f2 : r2.gl.attribBuffer = r1.gl.attribBuffer := by rw [hr2]
    have f3 : r2.gl.store = Function.update r1.gl.store r.gl.arrayBuffer (.lines lines2) := by
      rw [hr2]; simp [e2, ha0]
    have f4 : r2.gl.arrayBuffer = r.gl.arrayBuffer := by rw [hr2]; exact e2
    have f5 : line_buffer r2 = r.gl.arrayBuffer := by
      rw [line_buffer, f1, f2]; exact e3
    refine ⟨⟨[], ?_, rfl, rfl⟩, ?_, fun h0 => absurd h0 h, fun _ => ⟨e1, ?_⟩, ?_, ?_, f1, f2,
      ?_, ?_, ?_, ?_, ?_, ?_⟩
    · rw [hr1]; simp [lines_draw_calls, hc1]
    · rw [hr2]; simp [lines_draw_calls, hc2]
    · rw [e3, line_buffer, ha1]
    · rw [e3]; exact ha0
    · rw [e1, e2', ha2, e3]
    · rw [e3, e5]; simp
    · rw [e3, e5]; simp [BufData.bytes]
    · rw [f5, f3]; simp
    · rw [f5, f3]; simp [BufData.lineVertices]
    · intro b hne
      rw [e3] at hne
      rw [f3, e5]
      simp [Function.update_noteq hne]
    · right
      refine ⟨by rw [f4]; exact ha0, ?_, ?_⟩
      · rw [f4]; exact f5
      · rw [f1, f2, e1, e2', ha2, f4]

theorem do_render_lines_replaces_store_witness :
    (∀ k, mgr0.vertex_array k ≠ 0) ∧ (∀ k, mgr0.buffer k ≠ 0) ∧ lines_safe r0 ∧
    [l1, l2].length < 2 ^ 30 ∧ [l3].length < 2 ^ 30 ∧
    (do_render_lines mgr0 [l3] (do_render_lines mgr0 [l1, l2] r0)).gl.store
        (line_buffer (do_render_lines mgr0 [l3] (do_render_lines mgr0 [l1, l2] r0)))
      = .lines [l3] :=
  have hr0 : lines_safe r0 := Or.inl (by simp [r0, new_attr])
  ⟨fun k => by simp [mgr0], fun k => by simp [mgr0], hr0, by decide, by decide,
   (do_render_lines_replaces_store mgr0 (fun k => by simp [mgr0]) (fun k => by simp [mgr0]) r0 hr0
      [l1, l2] [l3] (by decide) (by decide)).2.2.2.2.2.2.2.2.2.2.1⟩

/-- Claim C5: the calls `render_frame_layer` appends are the block of the circles, then
the block of the rectangles, then the block of the lines, an empty group
contributing nothing.  Observing shader binds and draws only: one bind of the
circle shader and one 4-vertex strip draw per circle, one bind of the flat-color
shader and one draw per rectangle, one bind of the line shader and one line-list
draw.  The number of draws is `|circles| + |rectangles| + (1 if lines else 0)`, and
the shader of an empty group is not bound. -/
theorem render_frame_layer_blocks (mgr : ResourceManager) (slice : Frame.primitives_t)
    (r : Renderer) :
    let delta :=
      circles_block r.attr_.rect_vao slice.circles
        ++ rectangles_block r.attr_.rect_vao slice.rectangles
        ++ lines_block mgr r slice.lines
    (render_frame_layer mgr slice r).trace = r.trace ++ delta ∧
    events delta =
      (if slice.circles.isEmpty then []
        else Event.bind .circle :: slice.circles.map (fun _ => Event.draw .triangleStrip 4))
      ++ (if slice.rectangles.isEmpty then []
        else Event.bind .color :: slice.rectangles.map (fun _ => Event.draw .triangleStrip 4))
      ++ (if slice.lines.isEmpty then []
        else [Event.bind .lines, Event.draw .lines (toGLsizei (slice.lines.length * 2))]) ∧
    delta.countP Cmd.isDraw =
      slice.circles.length + slice.rectangles.length + (if slice.lines.isEmpty then 0 else 1) ∧
    (slice.circles.isEmpty → Cmd.use .circle ∉ delta) ∧
    (slice.rectangles.isEmpty → Cmd.use .color ∉ delta) ∧
    (slice.lines.isEmpty → Cmd.use .lines ∉ delta) := by
  intro delta
  refine ⟨?_, ?_, ?_, ?_, ?_, ?_⟩
  · rw [render_frame_layer_trace]; simp [delta]
  · simp only [delta, events_append, circles_block, rectangles_block, lines_block]
    congr 1
    congr 1
    · split_ifs
      · rfl
      · rw [events_append, events_circle_calls]; rfl
    · split_ifs
      · rfl
      · rw [events_append, events_rectangle_calls]; rfl
    · split_ifs
      · rfl
      · rw [events_append, events_lines_calls]; rfl
  · simp only [delta, List.countP_append, circles_block, rectangles_block, lines_block]
    congr 1
    congr 1
    · split_ifs with h
      · simp [List.isEmpty_iff.mp h]
      · rw [List.countP_append, countP_circle_calls]; simp [Cmd.isDraw, List.countP_cons]
    · split_ifs with h
      · simp [List.isEmpty_iff.mp h]
      · rw [List.countP_append, countP_rectangle_calls]; simp [Cmd.isDraw, List.countP_cons]
    · split_ifs
      · rfl
      · rw [List.countP_append, countP_lines_calls]; simp [Cmd.isDraw, List.countP_cons]
  · intro h
    simp only [delta, circles_block, h, if_true, rectangles_block, lines_block, lines_calls,
      lines_setup_calls, lines_draw_calls, rectangle_calls]
    split_ifs <;> simp [circle_calls, rectangle_calls]
  · intro h
    simp only [delta, circles_block, h, if_true, rectangles_block, lines_block, lines_calls,
      lines_setup_calls, lines_draw_calls, circle_calls]
    split_ifs <;> simp [circle_calls, rectangle_calls]
  · intro h
    simp only [delta, circles_block, h, if_true, rectangles_block, lines_block, lines_calls,
      lines_setup_calls, lines_draw_calls, circle_calls, rectangle_calls]
    split_ifs <;> simp [circle_calls, rectangle_calls]

/-- Claim C6: with non-zero vertex-array handles, take any call of `render_grid` on a
constructed renderer (after operations `pre`) and any later call (after further
operations `post`).  If `pre` holds no `render_grid`, the first call makes
exactly one `gen_vertex_array`, one `gen_buffer` and one upload.  After the first
call `grid_vao` is non-zero and it, and `grid_vertex_count`, stay as they are
through `post` and the later call; the later call makes no resource-manager
call and no upload: it binds the flat-color shader, sets the model and the
requested color, binds `grid_vao` and draws `grid_vertex_count` line-list
vertices. -/
theorem render_grid_built_once (mgr : ResourceManager) (hv : ∀ k, mgr.vertex_array k ≠ 0)
    (area : U32 × U32) (cells : U16 × U16) (pre post : List Op) (c1 c2 : Vec3) :
    let s1 := run mgr pre (Renderer.new mgr area cells)
    let s2 := render_grid mgr c1 s1
    let s3 := run mgr post s2
    let s4 := render_grid mgr c2 s3
    ((∀ op ∈ pre, op.isGrid = false) →
      ∃ delta, s2.trace = s1.trace ++ delta ∧
        delta.countP Cmd.isGenVertexArray = 1 ∧ delta.countP Cmd.isGenBuffer = 1 ∧
        delta.countP Cmd.isUpload = 1 ∧
        s2.vaos_made = s1.vaos_made + 1 ∧ s2.bufs_made = s1.bufs_made + 1 ∧
        s2.attr_.grid_vao = mgr.vertex_array s1.vaos_made) ∧
    s2.attr_.grid_vao ≠ 0 ∧
    s3.attr_.grid_vao = s2.attr_.grid_vao ∧
    s3.attr_.grid_vertex_count = s2.attr_.grid_vertex_count ∧
    s4.attr_.grid_vao = s2.attr_.grid_vao ∧
    s4.attr_.grid_vertex_count = s2.attr_.grid_vertex_count ∧
    s4.trace = s3.trace ++
      [.use .color, .set_mat4 .color .model s3.attr_.grid_model,
       .set_vec4 .color .color ⟨c2.x, c2.y, c2.z, 1⟩,
       .glBindVertexArray s2.attr_.grid_vao,
       .glDrawArrays .lines 0 s2.attr_.grid_vertex_count] ∧
    s4.vaos_made = s3.vaos_made ∧ s4.bufs_made = s3.bufs_made ∧
    s4.gl.store = s3.gl.store := by
  intro s1 s2 s3 s4
  have h2 : s2.attr_.grid_vao ≠ 0 := render_grid_vao_ne_zero mgr hv c1 s1
  have h3 : s3.attr_.grid_vao = s2.attr_.grid_vao ∧
      s3.attr_.grid_vertex_count = s2.attr_.grid_vertex_count :=
    run_grid_of_built mgr post s2 h2
  have h3' : s3.attr_.grid_vao ≠ 0 := by rw [h3.1]; exact h2
  have h4 : s4 = _ := render_grid_built mgr c2 s3 h3'
  refine ⟨?_, h2, h3.1, h3.2, ?_, ?_, ?_, ?_, ?_, ?_⟩
  · intro hpre
    have h0 : s1.attr_.grid_vao = 0 := by
      rw [(run_grid_of_not_isGrid mgr pre _ hpre).1, new_attr]
    have hs2 : s2 = _ := render_grid_first mgr c1 s1 h0
    refine ⟨grid_build_calls s1 c1 (mgr.vertex_array s1.vaos_made) (mgr.buffer s1.bufs_made),
      ?_, rfl, rfl, rfl, ?_, ?_, ?_⟩ <;> rw [hs2]
  · rw [h4]; exact h3.1
  · rw [h4]; exact h3.2
  · rw [h4]; simp only [grid_draw_calls]; rw [h3.1, h3.2]
  · rw [h4]
  · rw [h4]
  · rw [h4]

theorem render_grid_built_once_witness :
    (∀ k, mgr0.vertex_array k ≠ 0) ∧
    (render_grid mgr0 ⟨0, 0, 0⟩
        (run mgr0 [.render_background ⟨1, 1, 1⟩]
          (render_grid mgr0 ⟨1, 1, 1⟩ (run mgr0 [] (Renderer.new mgr0 (800, 600) (3, 2)))))).attr_.grid_vao
      ≠ 0 :=
  ⟨fun k => by simp [mgr0],
   by
    have h := render_grid_built_once mgr0 (fun k => by simp [mgr0]) (800, 600) (3, 2) []
      [.render_background ⟨1, 1, 1⟩] ⟨1, 1, 1⟩ ⟨0, 0, 0⟩
    exact h.2.2.2.2.1 ▸ h.2.1⟩

/-- Claim C7, evaluated on the code, for the order lines, first `render_grid`, lines:
the first line draw creates buffer 3 for the lines and fills it; the first
`render_grid` creates buffer 4, fills it with the grid and leaves it bound to
`GL_ARRAY_BUFFER`; the second line draw then uploads into buffer 4, so the grid
buffer holds the new lines, while buffer 3, which the line layout still
sources, keeps the first list. -/
theorem lines_upload_overwrites_grid_buffer :
    after_first_lines.gl.attribBuffer after_first_lines.attr_.lines_vao 0 = 3 ∧
    after_first_lines.gl.store 3 = .lines [l1, l2] ∧
    after_first_grid.gl.attribBuffer after_first_grid.attr_.grid_vao 0 = 4 ∧
    after_first_grid.gl.store 4 = .floats (grid_floats (3, 2)) ∧
    after_first_grid.gl.arrayBuffer = 4 ∧
    after_second_lines.gl.attribBuffer after_second_lines.attr_.lines_vao 0 = 3 ∧
    after_second_lines.gl.store 4 = .lines [l3] ∧
    after_second_lines.gl.store 3 = .lines [l1, l2] := by
  simp [after_second_lines, after_first_grid, after_first_lines, render_frame_layer, render_grid,
    do_render_lines, r0, mgr0, Renderer.new, emit,
    gen_vertex_array, gen_vertex_array_handle, gen_buffer, gen_buffer_handle,
    glBindVertexArray, glBindBuffer, glBufferData, glVertexAttribPointer,
    glEnableVertexAttribArray, glDrawArrays, glBindBufferBase, GLState.bound, GLState.fresh,
    Function.update]

/-- Claim C8, evaluated on the code: with `cells_x = 0` the grid still starts with
exactly one vertical line, but `step_x = 1.0f / 0` is infinite and
`shift = step_x * 0` is NaN, so its vertices are `(NaN, 0, 0)` and `(NaN, 1, 0)`,
not `(0, 0, 0)` and `(0, 1, 0)`; likewise with `cells_y = 0` the one horizontal
line is `(0, NaN, 0)`, `(1, NaN, 0)`. -/
theorem grid_floats_zero_cells :
    (∀ cy : U16, grid_floats (0, cy)
      = [F32.nan, F32.fin 0, F32.fin 0, F32.nan, F32.fin 1, F32.fin 0]
          ++ (List.range (cy.val + 1)).flatMap (horizontal_line (1 / F32.ofNat cy.val))) ∧
    (∀ cx : U16, grid_floats (cx, 0)
      = (List.range (cx.val + 1)).flatMap (vertical_line (1 / F32.ofNat cx.val))
          ++ [F32.fin 0, F32.nan, F32.fin 0, F32.fin 1, F32.nan, F32.fin 0]) := by
  have hnan : F32.fin 1 / F32.ofNat 0 * F32.ofNat 0 = F32.nan := by
    rw [F32.ofNat_zero]
    show F32.mul (F32.div (F32.fin 1) (F32.fin 0)) (F32.fin 0) = F32.nan
    simp [F32.div, F32.mul]
  have hr : List.range 1 = [0] := rfl
  constructor
  · intro cy
    rw [grid_floats_eq]
    simp [hr, vertical_line, hnan, F32.zero_eq, F32.one_eq]
  · intro cx
    rw [grid_floats_eq]
    simp [hr, horizontal_line, hnan, F32.zero_eq, F32.one_eq]


/-- Claim C9 fails as stated: for the area size `(16777217, 600)` the stored width is
the float `16777216`, and the literal `-0.2f` is `-13421773 / 67108864`, so
the corner `(1, 1, 0)` of the unit quad goes to
`(16777216, 600, -13421773 / 67108864)`, not to
`(16777217 / 2 * (1 + 1), 600 / 2 * (1 + 1), -0.2)`; the first coordinate
differs whatever is taken for the third. -/
theorem render_background_area_counterexample :
    ∃ M : Mat4,
      (render_background ⟨1, 1, 1⟩ r_wide).trace
        = r_wide.trace ++
            [.use .color,
             .set_mat4 .color .model M,
             .set_vec4 .color .color ⟨1, 1, 1, 1⟩,
             .glBindVertexArray r_wide.attr_.rect_vao,
             .glDrawArrays .triangleStrip 0 4] ∧
      M.apply ⟨F32.fin 1, F32.fin 1, F32.fin 0⟩
        = ⟨F32.fin 16777216, F32.fin 600, F32.fin (-13421773 / 67108864)⟩ ∧
      M.apply ⟨F32.fin 1, F32.fin 1, F32.fin 0⟩
        ≠ ⟨F32.fin (16777217 / 2 * (1 + 1)), F32.fin (600 / 2 * (1 + 1)), F32.fin (-1 / 5)⟩ ∧
      M.apply ⟨F32.fin 1, F32.fin 1, F32.fin 0⟩
        ≠ ⟨F32.fin (16777217 / 2 * (1 + 1)), F32.fin (600 / 2 * (1 + 1)),
           F32.fin (-13421773 / 67108864)⟩ := by
  have e1 : (F32.ofNat (16777217 : U32).val).toRat = 16777216 := by
    have h : F32.ofNat (16777217 : U32).val = F32.fin 16777216 := by
      rw [show (16777217 : U32).val = 16777217 from rfl, F32.ofNat]
      simpa using F32.round_16777217
    rw [h]; rfl
  have e2 : (F32.ofNat (600 : U32).val).toRat = 600 := by
    rw [show (600 : U32).val = 600 from rfl, F32.ofNat_of_le 600 (by norm_num)]
    simp [F32.toRat]
  have ht := render_background_trace_new mgr0 (16777217, 600) (3, 2) [] ⟨1, 1, 1⟩
  simp only [e1, e2] at ht
  have hap := background_model_apply 16777216 600 (-13421773 / 67108864) 1 1
  refine ⟨Mat4.translate
      (Mat4.scale Mat4.identity ⟨F32.fin (16777216 / 2), F32.fin (600 / 2), F32.fin 1⟩)
      ⟨F32.fin 1, F32.fin 1, F32.fin (-13421773 / 67108864)⟩, ?_, ?_, ?_, ?_⟩
  · simpa [r_wide, run, F32.one_eq] using ht
  · rw [hap]; norm_num
  · rw [hap]; norm_num
  · rw [hap]; norm_num

/-- Claim C9, amended: on a constructed renderer, after any public operations,
`render_background` binds the flat-color shader, sets `model` and
`color = (r, g, b, 1)`, binds the unit quad and issues one 4-vertex triangle-strip
draw; the model matrix is `scale(A / 2, B / 2, 1)` followed by
`translate(1, 1, -0.2f)`, where `(A, B)` is the area size as the float member
`area_size_` holds it and `-0.2f` is the float `-13421773 / 67108864`; it maps
`(x, y, 0)` to `(A / 2 * (x + 1), B / 2 * (y + 1), -0.2f)`.  A component of the
area size up to `2 ^ 24` is stored exactly.  For the area `(800, 600)` and the
color `(0.1f, 0.1f, 0.1f)` the half-extents are `(400, 300)` and the corners
of the quad go to `(0, 0)`, `(800, 0)`, `(0, 600)`, `(800, 600)`. -/
theorem render_background_quad :
    (∀ (mgr : ResourceManager) (area : U32 × U32) (cells : U16 × U16) (ops : List Op)
        (color : Vec3),
      ∃ M : Mat4,
        (render_background color (run mgr ops (Renderer.new mgr area cells))).trace
          = (run mgr ops (Renderer.new mgr area cells)).trace ++
              [.use .color,
               .set_mat4 .color .model M,
               .set_vec4 .color .color ⟨color.x, color.y, color.z, F32.fin 1⟩,
               .glBindVertexArray (run mgr ops (Renderer.new mgr area cells)).attr_.rect_vao,
               .glDrawArrays .triangleStrip 0 4] ∧
        M = Mat4.translate
              (Mat4.scale Mat4.identity
                ⟨F32.fin ((F32.ofNat area.1.val).toRat / 2),
                 F32.fin ((F32.ofNat area.2.val).toRat / 2), F32.fin 1⟩)
              ⟨F32.fin 1, F32.fin 1, F32.fin (-13421773 / 67108864)⟩ ∧
        ∀ x y : ℚ, M.apply ⟨F32.fin x, F32.fin y, F32.fin 0⟩
          = ⟨F32.fin ((F32.ofNat area.1.val).toRat / 2 * (x + 1)),
             F32.fin ((F32.ofNat area.2.val).toRat / 2 * (y + 1)),
             F32.fin (-13421773 / 67108864)⟩) ∧
    (∀ n : ℕ, n ≤ 2 ^ 24 → F32.ofNat n = F32.fin n ∧ (F32.ofNat n).toRat = n) ∧
    F32.round (-1 / 5) = F32.fin (-13421773 / 67108864) ∧
    (∀ (mgr : ResourceManager) (cells : U16 × U16) (ops : List Op),
      ∃ M : Mat4,
        (render_background ⟨F32.round (1 / 10), F32.round (1 / 10), F32.round (1 / 10)⟩
            (run mgr ops (Renderer.new mgr (800, 600) cells))).trace
          = (run mgr ops (Renderer.new mgr (800, 600) cells)).trace ++
              [.use .color,
               .set_mat4 .color .model M,
               .set_vec4 .color .color
                 ⟨F32.round (1 / 10), F32.round (1 / 10), F32.round (1 / 10), F32.fin 1⟩,
               .glBindVertexArray (run mgr ops (Renderer.new mgr (800, 600) cells)).attr_.rect_vao,
               .glDrawArrays .triangleStrip 0 4] ∧
        M = Mat4.translate
              (Mat4.scale Mat4.identity ⟨F32.fin 400, F32.fin 300, F32.fin 1⟩)
              ⟨F32.fin 1, F32.fin 1, F32.fin (-13421773 / 67108864)⟩ ∧
        quad_corners.map M.apply =
          [⟨F32.fin 0, F32.fin 0, F32.fin (-13421773 / 67108864)⟩,
           ⟨F32.fin 800, F32.fin 0, F32.fin (-13421773 / 67108864)⟩,
           ⟨F32.fin 0, F32.fin 600, F32.fin (-13421773 / 67108864)⟩,
           ⟨F32.fin 800, F32.fin 600, F32.fin (-13421773 / 67108864)⟩]) := by
  refine ⟨?_, ?_, F32.round_neg_fifth, ?_⟩
  · intro mgr area cells ops color
    exact ⟨_, render_background_trace_new mgr area cells ops color, rfl,
      fun x y => background_model_apply _ _ _ x y⟩
  · intro n hn
    have h := F32.ofNat_of_le n hn
    exact ⟨h, by rw [h]; rfl⟩
  · intro mgr cells ops
    have e1 : (F32.ofNat (800 : U32).val).toRat / 2 = 400 := by
      rw [show (800 : U32).val = 800 from rfl, F32.ofNat_of_le 800 (by norm_num)]
      norm_num [F32.toRat]
    have e2 : (F32.ofNat (600 : U32).val).toRat / 2 = 300 := by
      rw [show (600 : U32).val = 600 from rfl, F32.ofNat_of_le 600 (by norm_num)]
      norm_num [F32.toRat]
    have hk := render_background_trace_new mgr (800, 600) cells ops
      ⟨F32.round (1 / 10), F32.round (1 / 10), F32.round (1 / 10)⟩
    simp only [e1, e2] at hk
    refine ⟨_, hk, rfl, ?_⟩
    rw [quad_corners_eq]
    simp only [List.map_cons, List.map_nil, Mat4.apply, Mat4.mulVec, Mat4.scale, Mat4.translate,
      Mat4.identity, Vec4.smul, Vec4.add, F32.zero_eq, F32.one_eq, F32.emul_fin,
      F32.eadd_fin]
    norm_num


/-- Claim C10: on a renderer constructed with non-zero buffer handles, after any public
operations and whatever data `d` the uniform buffer holds, the uniform buffer is
the one bound to uniform slot 0, and after `update_frustum` its store is exactly
the 16 floats (64 bytes) of the camera matrix, column by column, so that
reading the store back as a matrix gives the camera matrix; the slot bindings,
every renderer field and every other buffer are unchanged; a second
`update_frustum` leaves exactly the second matrix. -/
theorem update_frustum_roundtrip (mgr : ResourceManager) (hb : ∀ k, mgr.buffer k ≠ 0)
    (area : U32 × U32) (cells : U16 × U16) (ops : List Op) (d : BufData) (cam cam2 : Camera) :
    let s0 := run mgr ops (Renderer.new mgr area cells)
    let s : Renderer :=
      { s0 with gl := { s0.gl with store := Function.update s0.gl.store s0.attr_.uniform_buf d } }
    let s1 := update_frustum cam s
    let s2 := update_frustum cam2 s1
    s.attr_.uniform_buf = mgr.buffer 1 ∧
    s.gl.uniformSlot 0 = s.attr_.uniform_buf ∧
    s.gl.store s.attr_.uniform_buf = d ∧
    s1.gl.store s.attr_.uniform_buf =
      .floats [cam.proj_view.c0.x, cam.proj_view.c0.y, cam.proj_view.c0.z, cam.proj_view.c0.w,
               cam.proj_view.c1.x, cam.proj_view.c1.y, cam.proj_view.c1.z, cam.proj_view.c1.w,
               cam.proj_view.c2.x, cam.proj_view.c2.y, cam.proj_view.c2.z, cam.proj_view.c2.w,
               cam.proj_view.c3.x, cam.proj_view.c3.y, cam.proj_view.c3.z, cam.proj_view.c3.w] ∧
    (s1.gl.store s.attr_.uniform_buf).readMat4 = some cam.proj_view ∧
    (s1.gl.store s.attr_.uniform_buf).bytes = 64 ∧
    s1.gl.uniformSlot = s.gl.uniformSlot ∧
    s1.attr_ = s.attr_ ∧ s1.area_size_ = s.area_size_ ∧ s1.grid_cells_ = s.grid_cells_ ∧
    s1.vaos_made = s.vaos_made ∧ s1.bufs_made = s.bufs_made ∧
    (∀ b, b ≠ s.attr_.uniform_buf → s1.gl.store b = s.gl.store b) ∧
    (s2.gl.store s.attr_.uniform_buf).readMat4 = some cam2.proj_view ∧
    (∀ b, b ≠ s.attr_.uniform_buf → s2.gl.store b = s.gl.store b) := by
  intro s0 s s1 s2
  have hk := run_keeps mgr ops (Renderer.new mgr area cells)
  have hub : s0.attr_.uniform_buf = mgr.buffer 1 := by
    rw [hk.2.2.2.1, new_attr]
  have hslot : s0.gl.uniformSlot 0 = mgr.buffer 1 := by
    rw [hk.2.2.2.2.2, new_uniformSlot]
  have h1 := hb 1
  simp only [s2, s1, s, update_frustum_eq]
  simp only [hub]
  simp [h1, hslot, Mat4.toList, BufData.bytes, BufData.readMat4, Mat4.ofList]
  constructor
  · intro b hb'
    rw [Function.update_noteq hb', hub, Function.update_noteq hb']
  · intro b hb'
    rw [Function.update_noteq hb', hub, Function.update_noteq hb']

theorem update_frustum_roundtrip_witness :
    (∀ k, mgr0.buffer k ≠ 0) ∧
    ((update_frustum cam0
        { r0 with gl := { r0.gl with
            store := Function.update r0.gl.store r0.attr_.uniform_buf (.uninit 64) } }).gl.store
        r0.attr_.uniform_buf).readMat4 = some cam0.proj_view :=
  ⟨fun k => by simp [mgr0],
   (update_frustum_roundtrip mgr0 (fun k => by simp [mgr0]) (800, 600) (3, 2) [] (.uninit 64)
      cam0 cam0).2.2.2.2.1⟩

end Rewind
